import Mathlib

/-!
Shallow embedding of `raiden/channel.py`: the payment-channel state engine
(`LockedTransfers`, `ChannelEndState`, `ChannelExternalState`, `Channel`).

Conventions of the embedding:
* Python integers are `Int` (arbitrary precision, no overflow).
* Addresses and secrets are `Nat`.
* 32-byte hash values are the free inductive `HashVal`, so that the hash
  function `sha3` is injective by construction and everything is decidable.
* Mutation is explicit state passing; a raised Python exception is an
  `Except.error` that carries the object state as it was at the moment of the
  raise (Python objects keep any mutations made before the exception).
-/

namespace Raiden

/-- Decidable equality of fallible results, used to state concrete
counterexamples. -/
instance {e a : Type} [DecidableEq e] [DecidableEq a] :
    DecidableEq (Except e a) := fun x y =>
  match x, y with
  | .error u, .error v =>
    if h : u = v then .isTrue (by rw [h]) else
      .isFalse (by intro hh; cases hh; exact h rfl)
  | .ok u, .ok v =>
    if h : u = v then .isTrue (by rw [h]) else
      .isFalse (by intro hh; cases hh; exact h rfl)
  | .error _, .ok _ => .isFalse (by intro hh; cases hh)
  | .ok _, .error _ => .isFalse (by intro hh; cases hh)

/-- Python exception values raised by `channel.py`.  `valueError` carries the
message string; the dedicated exception classes declared at the top of the
file are separate constructors.  `InvalidLockTime` is declared in the source
but never raised. -/
inductive RErr where
  | valueError (msg : String)
  | invalidNonce
  | invalidSecret
  | invalidLocksRoot
  | invalidLockTime
  | insufficientBalance
  | keyError
  | assertionError
  | attributeError
deriving DecidableEq, Repr

/-- The Python exception class of an error, as a string the caller can match
on (`except ValueError`, `except InvalidNonce`, ...). -/
def RErr.className : RErr → String
  | .valueError _ => "ValueError"
  | .invalidNonce => "InvalidNonce"
  | .invalidSecret => "InvalidSecret"
  | .invalidLocksRoot => "InvalidLocksRoot"
  | .invalidLockTime => "InvalidLockTime"
  | .insufficientBalance => "InsufficientBalance"
  | .keyError => "KeyError"
  | .assertionError => "AssertionError"
  | .attributeError => "AttributeError"

/-- Modelled from the spec: 32-byte hash values, built freely so that the
domain hash `H` is injective and computable.  `sha3Lock a e hl` stands for
`sha3(amount ‖ expiration ‖ hashlock)` of a lock's canonical bytes,
`sha3Secret s` for the hashlock `sha3(secret)`, `node l r` for an internal
Merkle-tree node, and `zero` for the all-zero root of the empty set
(the source module `raiden/mtree.py` is not part of `src/`). -/
inductive HashVal where
  | sha3Lock (amount expiration : Int) (hashlock : HashVal)
  | sha3Secret (secret : Nat)
  | node (l r : HashVal)
  | zero
deriving DecidableEq, Repr

/-- `Lock` from `raiden.messages`: `{amount, expiration, hashlock}`. -/
structure Lock where
  amount : Int
  expiration : Int
  hashlock : HashVal
deriving DecidableEq, Repr

/-- `sha3(lock.as_bytes)` where `as_bytes = amount ‖ expiration ‖ hashlock`
(spec §6, "Lock canonical bytes"). -/
def sha3_lock_bytes (l : Lock) : HashVal :=
  HashVal.sha3Lock l.amount l.expiration l.hashlock

/-- `DirectTransfer` message.  `sender` is recovered from the signature; it is
`0` until `sign` is applied. -/
structure DirectTransfer where
  nonce : Int
  asset : Nat
  transfered_amount : Int
  recipient : Nat
  locksroot : HashVal
  secret : Option Nat
  sender : Nat := 0
deriving DecidableEq, Repr

/-- `LockedTransfer` message. -/
structure LockedTransfer where
  nonce : Int
  asset : Nat
  transfered_amount : Int
  recipient : Nat
  locksroot : HashVal
  lock : Lock
  sender : Nat := 0
deriving DecidableEq, Repr

/-- The transfer variants handled by `register_transfer_from_to`
(`isinstance` dispatch in the source). -/
inductive Transfer where
  | direct (t : DirectTransfer)
  | locked (t : LockedTransfer)
deriving DecidableEq, Repr

def Transfer.nonce : Transfer → Int
  | .direct t => t.nonce
  | .locked t => t.nonce

def Transfer.asset : Transfer → Nat
  | .direct t => t.asset
  | .locked t => t.asset

def Transfer.transfered_amount : Transfer → Int
  | .direct t => t.transfered_amount
  | .locked t => t.transfered_amount

def Transfer.recipient : Transfer → Nat
  | .direct t => t.recipient
  | .locked t => t.recipient

def Transfer.sender : Transfer → Nat
  | .direct t => t.sender
  | .locked t => t.sender

/-- Signing a message makes `sender` recoverable as the signer's address. -/
def Transfer.sign (addr : Nat) : Transfer → Transfer
  | .direct t => .direct { t with sender := addr }
  | .locked t => .locked { t with sender := addr }

/-- Modelled from the spec: one pairing pass of the binary Merkle tree
(`raiden/mtree.py` is not part of `src/`; spec §4.5 fixes a deterministic
binary hash tree over the ordered hash sequence). -/
def merkle_level : List HashVal → List HashVal
  | [] => []
  | [a] => [a]
  | a :: b :: rest => HashVal.node a b :: merkle_level rest

/-- Fuel-indexed driver for `merkleroot`; `hashes.length` is always enough
fuel because each pass at least halves a list of length ≥ 2. -/
def merkleroot_aux : Nat → List HashVal → HashVal
  | _, [] => HashVal.zero
  | _, [a] => a
  | 0, a :: _ :: _ => a
  | fuel + 1, a :: b :: rest => merkleroot_aux fuel (merkle_level (a :: b :: rest))

/-- Modelled from the spec: `merkleroot` over the ordered sequence of lock
hashes; the empty sequence yields the all-zero root (spec §4.5). -/
def merkleroot (hashes : List HashVal) : HashVal :=
  merkleroot_aux hashes.length hashes

/-- `LockedTransfers`: mapping from hashlock to transfer plus the ordered
cache of lock hashes and the cached Merkle root
(`locked`, `_cached_lock_hashes`, `_cached_root` in the source). -/
structure LockedTransfers where
  locked : List (HashVal × LockedTransfer)
  cached_lock_hashes : List HashVal
  cached_root : Option HashVal
deriving DecidableEq, Repr

/-- `LockedTransfers.__init__`. -/
def LockedTransfers.init : LockedTransfers :=
  { locked := [], cached_lock_hashes := [], cached_root := none }

/-- Dictionary lookup `self.locked[hashlock]` as an `Option`. -/
def LockedTransfers.lookup (s : LockedTransfers) (hashlock : HashVal) :
    Option LockedTransfer :=
  (s.locked.find? (fun p => p.1 = hashlock)).map Prod.snd

/-- `hashlock in self.locked` (`__contains__`). -/
def LockedTransfers.mem (s : LockedTransfers) (hashlock : HashVal) : Bool :=
  (s.lookup hashlock).isSome

/-- `LockedTransfers.add`: asserts the hashlock is new, inserts the mapping,
appends the lock hash, invalidates the cached root. -/
def LockedTransfers.add (s : LockedTransfers) (transfer : LockedTransfer) :
    Except RErr LockedTransfers :=
  if s.mem transfer.lock.hashlock then
    .error .assertionError
  else
    .ok { locked := s.locked ++ [(transfer.lock.hashlock, transfer)]
          cached_lock_hashes := s.cached_lock_hashes ++ [sha3_lock_bytes transfer.lock]
          cached_root := none }

/-- `LockedTransfers.remove`: `list.remove` of the lock hash (first
occurrence; `ValueError` when absent), then cache invalidation, then
`del self.locked[hashlock]` (`KeyError` when absent).  The error carries the
container state at the raise. -/
def LockedTransfers.remove (s : LockedTransfers) (hashlock : HashVal) :
    Except (RErr × LockedTransfers) LockedTransfers :=
  match s.lookup hashlock with
  | none => .error (.keyError, s)
  | some transfer =>
    let h := sha3_lock_bytes transfer.lock
    if h ∈ s.cached_lock_hashes then
      .ok { locked := s.locked.eraseP (fun p => p.1 = hashlock)
            cached_lock_hashes := s.cached_lock_hashes.erase h
            cached_root := none }
    else
      .error (.valueError "list.remove(x): x not in list", s)

/-- `outstanding` property: total locked amount. -/
def LockedTransfers.outstanding (s : LockedTransfers) : Int :=
  (s.locked.map (fun p => p.2.lock.amount)).sum

/-- `root` property: returns the cached root, computing it on a cache miss
(and filling the cache — the returned container carries the filled cache). -/
def LockedTransfers.root (s : LockedTransfers) : HashVal × LockedTransfers :=
  match s.cached_root with
  | some r => (r, s)
  | none =>
    let r := merkleroot s.cached_lock_hashes
    (r, { s with cached_root := some r })

/-- The value the `root` property returns. -/
def LockedTransfers.root_val (s : LockedTransfers) : HashVal :=
  (s.root).1

/-- `LockedTransfers.root_with(lock, exclude)`: temporarily appends the
include hash, temporarily removes the exclude hash (`list.remove`, raising
`ValueError` when absent), computes the root, asserts and removes the first
occurrence of the include hash, and re-appends the exclude hash.  Errors
carry the container state at the raise (the temporary mutations made so far
are kept, exactly as in the source). -/
def LockedTransfers.root_with (s : LockedTransfers) (lock exclude : Option Lock) :
    Except (RErr × LockedTransfers) (HashVal × LockedTransfers) :=
  -- temporarily add
  let hashes1 := match lock with
    | some l => s.cached_lock_hashes ++ [sha3_lock_bytes l]
    | none => s.cached_lock_hashes
  -- temporarily remove
  match exclude with
  | some ex =>
    let exh := sha3_lock_bytes ex
    if exh ∈ hashes1 then
      let hashes2 := hashes1.erase exh
      let root := merkleroot hashes2
      -- remove the temporarily added hash
      match lock with
      | some l =>
        let lh := sha3_lock_bytes l
        if lh ∈ hashes2 then
          -- reinclude the temporarily removed hash
          .ok (root, { s with cached_lock_hashes := hashes2.erase lh ++ [exh] })
        else
          .error (.assertionError, { s with cached_lock_hashes := hashes2 })
      | none =>
        .ok (root, { s with cached_lock_hashes := hashes2 ++ [exh] })
    else
      .error (.valueError "list.remove(x): x not in list",
              { s with cached_lock_hashes := hashes1 })
  | none =>
    let root := merkleroot hashes1
    match lock with
    | some l =>
      let lh := sha3_lock_bytes l
      if lh ∈ hashes1 then
        .ok (root, { s with cached_lock_hashes := hashes1.erase lh })
      else
        .error (.assertionError, { s with cached_lock_hashes := hashes1 })
    | none => .ok (root, s)

/-- Class invariant of `LockedTransfers`: the hash cache is exactly the lock
hashes of the stored transfers in insertion order, and every entry is keyed
by its own lock's hashlock. -/
def LockedTransfers.wf (s : LockedTransfers) : Prop :=
  s.cached_lock_hashes = s.locked.map (fun p => sha3_lock_bytes p.2.lock)
  ∧ ∀ p ∈ s.locked, p.1 = p.2.lock.hashlock

instance (s : LockedTransfers) : Decidable s.wf := by
  unfold LockedTransfers.wf
  infer_instance

/-- Permutation-form class invariant: the hash cache holds, as a multiset,
exactly the lock hashes of the stored transfers, and every entry is keyed
by its own lock's hashlock.  Unlike `wf` this is also preserved by the
sequence rotations `root_with` can leave behind, so it covers those
reachable states as well. -/
def LockedTransfers.wfPerm (s : LockedTransfers) : Prop :=
  List.Perm s.cached_lock_hashes
    (s.locked.map (fun p => sha3_lock_bytes p.2.lock))
  ∧ ∀ p ∈ s.locked, p.1 = p.2.lock.hashlock

instance (s : LockedTransfers) : Decidable s.wfPerm := by
  unfold LockedTransfers.wfPerm
  infer_instance

/-- `ChannelEndState`: per-participant accounting state. -/
structure ChannelEndState where
  contract_balance : Int
  transfered_amount : Int
  address : Nat
  nonce : Int
  locked : LockedTransfers
deriving DecidableEq, Repr

/-- `ChannelEndState.__init__(participant_address, participant_balance)`:
`transfered_amount = 0`, `nonce = 1` (0 is reserved on-chain for "no
transfer"), empty lock container.  The `isinstance(participant_balance,
(int, long))` check always passes in the typed embedding. -/
def ChannelEndState.init (participant_address : Nat) (participant_balance : Int) :
    ChannelEndState :=
  { contract_balance := participant_balance
    transfered_amount := 0
    address := participant_address
    nonce := 1
    locked := LockedTransfers.init }

/-- `balance(other) = contract_balance - transfered_amount + other.transfered_amount`. -/
def ChannelEndState.balance (self other : ChannelEndState) : Int :=
  self.contract_balance - self.transfered_amount + other.transfered_amount

/-- `update_contract_balance`. -/
def ChannelEndState.update_contract_balance (self : ChannelEndState)
    (contract_balance : Int) : ChannelEndState :=
  { self with contract_balance := contract_balance }

/-- `distributable(other) = balance(other) - other.locked.outstanding`. -/
def ChannelEndState.distributable (self other : ChannelEndState) : Int :=
  self.balance other - other.locked.outstanding

/-- The integer-valued attributes a `ChannelEndState` instance actually has
(the set assigned in `__init__`); reading any other name raises
`AttributeError`. -/
def ChannelEndState.int_attr (s : ChannelEndState) : String → Except RErr Int
  | "contract_balance" => .ok s.contract_balance
  | "transfered_amount" => .ok s.transfered_amount
  | "nonce" => .ok s.nonce
  | _ => .error .attributeError

/-- The "critical write section" at the end of
`ChannelEndState.claim_locked`: credits `partner.transfered_amount` by the
lock amount, then removes the hashlock from the container.  A failing
`remove` (ill-formed container) raises after the credit was written, exactly
as in the source. -/
def ChannelEndState.claim_write (self partner : ChannelEndState)
    (hashlock : HashVal) (lock : Lock) (locked1 : LockedTransfers) :
    Except (RErr × ChannelEndState × ChannelEndState)
      (ChannelEndState × ChannelEndState) :=
  let amount := lock.amount
  let partner1 := { partner with
    transfered_amount := partner.transfered_amount + amount }
  match locked1.remove hashlock with
  | .error (e, locked2) => .error (e, { self with locked := locked2 }, partner1)
  | .ok locked2 => .ok ({ self with locked := locked2 }, partner1)

/-- `ChannelEndState.claim_locked(partner, secret, locksroot)`: checks the
hashlock is tracked (`InvalidSecret`), optionally checks
`root_with(None, exclude=lock)` against `locksroot` (`InvalidLocksRoot`),
then runs the critical write section.  Errors carry both objects' states at
the raise. -/
def ChannelEndState.claim_locked (self partner : ChannelEndState) (secret : Nat)
    (locksroot : Option HashVal) :
    Except (RErr × ChannelEndState × ChannelEndState)
      (ChannelEndState × ChannelEndState) :=
  match self.locked.lookup (HashVal.sha3Secret secret) with
  | none => .error (.invalidSecret, self, partner)
  | some transfer =>
    match locksroot with
    | some lr =>
      match self.locked.root_with none (some transfer.lock) with
      | .error (e, locked1) => .error (e, { self with locked := locked1 }, partner)
      | .ok (r, locked1) =>
        if r ≠ lr then
          .error (.invalidLocksRoot, { self with locked := locked1 }, partner)
        else
          self.claim_write partner (HashVal.sha3Secret secret) transfer.lock locked1
    | none =>
      self.claim_write partner (HashVal.sha3Secret secret) transfer.lock self.locked

/-- `ChannelExternalState`: block numbers from the netting contract plus the
hashlock-registration hook (modelled as the list of registered hashlocks). -/
structure ChannelExternalState where
  opened_block : Nat
  closed_block : Nat
  settled_block : Nat
  block_number : Int
  registered_hashlocks : List HashVal
deriving DecidableEq, Repr

/-- `isopen`: closed channels are not open; otherwise open iff opened. -/
def ChannelExternalState.isopen (e : ChannelExternalState) : Bool :=
  if e.closed_block ≠ 0 then false
  else if e.opened_block ≠ 0 then true
  else false

/-- `register_channel_for_hashlock` side-effect hook. -/
def ChannelExternalState.register_channel_for_hashlock (e : ChannelExternalState)
    (hashlock : HashVal) : ChannelExternalState :=
  { e with registered_hashlocks := e.registered_hashlocks ++ [hashlock] }

/-- Which endpoint of the channel plays `from_state` in
`register_transfer_from_to`. -/
inductive Side where
  | ours
  | partners
deriving DecidableEq, Repr

def Side.other : Side → Side
  | .ours => .partners
  | .partners => .ours

/-- The `Channel` object. -/
structure Channel where
  our_state : ChannelEndState
  partner_state : ChannelEndState
  external_state : ChannelExternalState
  asset_address : Nat
  reveal_timeout : Int
  settle_timeout : Int
  received_transfers : List Transfer
  sent_transfers : List Transfer
deriving DecidableEq, Repr

/-- `Channel.__init__` over freshly initialised endpoint states. -/
def Channel.init (our_address : Nat) (our_balance : Int) (partner_address : Nat)
    (partner_balance : Int) (external_state : ChannelExternalState)
    (asset_address : Nat) (reveal_timeout settle_timeout : Int) : Channel :=
  { our_state := ChannelEndState.init our_address our_balance
    partner_state := ChannelEndState.init partner_address partner_balance
    external_state := external_state
    asset_address := asset_address
    reveal_timeout := reveal_timeout
    settle_timeout := settle_timeout
    received_transfers := []
    sent_transfers := [] }

def Channel.stateOf (c : Channel) : Side → ChannelEndState
  | .ours => c.our_state
  | .partners => c.partner_state

def Channel.setState (c : Channel) : Side → ChannelEndState → Channel
  | .ours, s => { c with our_state := s }
  | .partners, s => { c with partner_state := s }

/-- `Channel.isopen` property. -/
def Channel.isopen (c : Channel) : Bool :=
  c.external_state.isopen

/-- `Channel.transfered_amount` property: the source reads
`self.our_state.transfer_amount`, an attribute `ChannelEndState.__init__`
never assigns (the field is spelled `transfered_amount`), so the read goes
through the attribute table. -/
def Channel.transfered_amount (c : Channel) : Except RErr Int :=
  c.our_state.int_attr "transfer_amount"

/-- The first six validation checks of `register_transfer_from_to` (source
lines 431-453): asset, recipient, sender, negative transfer, nonce, and the
distributable amount, in this order.  None of them mutates any state; the
result is the first failing check's exception, if any. -/
def Channel.precheck (c : Channel) (t : Transfer) (fromSide : Side) : Option RErr :=
  let from_state := c.stateOf fromSide
  let to_state := c.stateOf fromSide.other
  if t.asset ≠ c.asset_address then
    some (.valueError "Asset address mismatch")
  else if t.recipient ≠ to_state.address then
    some (.valueError "Unknow recipient")
  else if t.sender ≠ from_state.address then
    some (.valueError "Unsigned transfer")
  else if t.transfered_amount < from_state.transfered_amount then
    some (.valueError "Negative transfer")
  else if t.nonce < 1 ∨ t.nonce ≠ from_state.nonce then
    some .invalidNonce
  else if t.transfered_amount - from_state.transfered_amount >
      from_state.distributable to_state then
    some .insufficientBalance
  else
    none

/-- The `LockedTransfer` branch of `register_transfer_from_to` after the
six common checks (source lines 455-526 and 545-546): locked-amount check,
locksroot check via `root_with` (performed *before* the expiration checks;
its error log eagerly reads the `root` property, filling the root cache,
before raising — line 475), the two expiration window checks (raised as
plain `ValueError`), then `add`, the hashlock registration hook, and the
sender update.  Errors carry the channel state at the raise — in
particular the `to`-side container as `root_with` (and the error log) left
it. -/
def Channel.register_locked (c : Channel) (lt : LockedTransfer)
    (fromSide : Side) : Except (RErr × Channel) Channel :=
  let from_state := c.stateOf fromSide
  let to_state := c.stateOf fromSide.other
  let amount := lt.transfered_amount - from_state.transfered_amount
  let distributable := from_state.distributable to_state
  let block_number := c.external_state.block_number
  if amount + lt.lock.amount > distributable then
    .error (.insufficientBalance, c)
  else
    match to_state.locked.root_with (some lt.lock) none with
    | .error (e, locked1) =>
      .error (e, c.setState fromSide.other { to_state with locked := locked1 })
    | .ok (expected_locksroot, locked1) =>
      if expected_locksroot ≠ lt.locksroot then
        -- the log.error call evaluates pex(to_state.locked.root) before the
        -- raise (source line 475), filling the container's root cache
        .error (.invalidLocksRoot,
                c.setState fromSide.other
                  { to_state with locked := (locked1.root).2 })
      else if ¬(lt.lock.expiration - block_number < c.settle_timeout) then
        .error (.valueError "Transfer expiration doesn't allow for corret settlement.",
                c.setState fromSide.other { to_state with locked := locked1 })
      else if ¬(lt.lock.expiration - block_number > c.reveal_timeout) then
        .error (.valueError "Expiration smaller than the minimum requried.",
                c.setState fromSide.other { to_state with locked := locked1 })
      else
        match locked1.add lt with
        | .error e =>
          .error (e, c.setState fromSide.other { to_state with locked := locked1 })
        | .ok locked2 =>
          let c2 := c.setState fromSide.other { to_state with locked := locked2 }
          let c3 := { c2 with external_state :=
            c2.external_state.register_channel_for_hashlock lt.lock.hashlock }
          .ok (c3.setState fromSide { from_state with
            transfered_amount := lt.transfered_amount
            nonce := from_state.nonce + 1 })

/-- The `DirectTransfer` branch of `register_transfer_from_to` after the six
common checks (source lines 528-546): claim of an embedded secret, then the
sender update.  Errors carry the channel state at the raise. -/
def Channel.register_direct (c : Channel) (dt : DirectTransfer)
    (fromSide : Side) : Except (RErr × Channel) Channel :=
  let from_state := c.stateOf fromSide
  let to_state := c.stateOf fromSide.other
  match dt.secret with
  | some secret =>
    match to_state.claim_locked from_state secret (some dt.locksroot) with
    | .error (e, to1, from1) =>
      .error (e, (c.setState fromSide.other to1).setState fromSide from1)
    | .ok (to1, from1) =>
      .ok ((c.setState fromSide.other to1).setState fromSide
        { from1 with
          transfered_amount := dt.transfered_amount
          nonce := from1.nonce + 1 })
  | none =>
    .ok (c.setState fromSide { from_state with
      transfered_amount := dt.transfered_amount
      nonce := from_state.nonce + 1 })

/-- The final "REGISTERED TRANSFER" log of `register_transfer_from_to`
(source lines 548-560) evaluates `pex(to_state.locked.root)`, filling the
recipient container's root cache on the success path. -/
def Channel.log_registered (c : Channel) (toSide : Side) : Channel :=
  c.setState toSide
    { c.stateOf toSide with locked := ((c.stateOf toSide).locked.root).2 }

/-- `Channel.register_transfer_from_to(transfer, from_state, to_state)`
(source lines 413-560): the six common validation checks, then the
variant-specific phase (`isinstance` dispatch in the source), then the
final log's read of the recipient's `root` property.  Errors carry the
channel state at the raise. -/
def Channel.register_transfer_from_to (c : Channel) (t : Transfer)
    (fromSide : Side) : Except (RErr × Channel) Channel :=
  match c.precheck t fromSide with
  | some e => .error (e, c)
  | none =>
    match t with
    | .locked lt =>
      match c.register_locked lt fromSide with
      | .error e => .error e
      | .ok c1 => .ok (c1.log_registered fromSide.other)
    | .direct dt =>
      match c.register_direct dt fromSide with
      | .error e => .error e
      | .ok c1 => .ok (c1.log_registered fromSide.other)

/-- `Channel.register_transfer(transfer)`: routes on the recipient address
(outbound when it is the partner's, inbound when it is ours), appends the
transfer to `sent_transfers`/`received_transfers` on success.  The
`callback` parameter is omitted (no claim concerns it). -/
def Channel.register_transfer (c : Channel) (t : Transfer) :
    Except (RErr × Channel) Channel :=
  if t.recipient = c.partner_state.address then
    match c.register_transfer_from_to t .ours with
    | .error e => .error e
    | .ok c1 => .ok { c1 with sent_transfers := c1.sent_transfers ++ [t] }
  else if t.recipient = c.our_state.address then
    match c.register_transfer_from_to t .partners with
    | .error e => .error e
    | .ok c1 => .ok { c1 with received_transfers := c1.received_transfers ++ [t] }
  else
    .error (.valueError "Invalid address", c)

/-- `Channel.claim_locked(secret, locksroot)`: dispatches to whichever
endpoint tracks `sha3(secret)`, else raises `ValueError` (the source does
not use a dedicated exception class here). -/
def Channel.claim_locked (c : Channel) (secret : Nat) (locksroot : Option HashVal) :
    Except (RErr × Channel) Channel :=
  let hashlock := HashVal.sha3Secret secret
  if (c.our_state.locked.lookup hashlock).isSome then
    match c.our_state.claim_locked c.partner_state secret locksroot with
    | .error (e, s1, p1) => .error (e, { c with our_state := s1, partner_state := p1 })
    | .ok (s1, p1) => .ok { c with our_state := s1, partner_state := p1 }
  else if (c.partner_state.locked.lookup hashlock).isSome then
    match c.partner_state.claim_locked c.our_state secret locksroot with
    | .error (e, p1, s1) => .error (e, { c with partner_state := p1, our_state := s1 })
    | .ok (p1, s1) => .ok { c with partner_state := p1, our_state := s1 }
  else
    .error (.valueError "The secret doesnt unlock any hashlock", c)

/-- `Channel.create_directtransfer(amount, secret)`: requires an open channel
and `0 < amount ≤ distributable`; the message's `locksroot` is the partner's
*current* locks root (the `secret` argument is only embedded in the message).
Reading the `root` property may fill the partner container's cache, so the
(possibly cache-updated) channel is returned alongside the message. -/
def Channel.create_directtransfer (c : Channel) (amount : Int)
    (secret : Option Nat) : Except RErr (DirectTransfer × Channel) :=
  if ¬c.isopen then
    .error (.valueError "The channel is closed")
  else
    let from_ := c.our_state
    let to_ := c.partner_state
    let distributable := from_.distributable to_
    if amount ≤ 0 ∨ amount > distributable then
      .error (.valueError "Insufficient funds")
    else
      let transfered_amount := from_.transfered_amount + amount
      let rooted := to_.locked.root
      .ok ({ nonce := from_.nonce
             asset := c.asset_address
             transfered_amount := transfered_amount
             recipient := to_.address
             locksroot := rooted.1
             secret := secret },
           { c with partner_state := { to_ with locked := rooted.2 } })

/-- `Channel.create_lockedtransfer(amount, expiration, hashlock)`: requires
an open channel, `expiration - block < settle_timeout`,
`expiration - reveal_timeout ≥ block` (note: non-strict, unlike the strict
check in `register_transfer_from_to`) and `0 < amount ≤ distributable`.  The
locksroot is `root_with(lock)` over the partner's container; the possibly
re-sequenced container is threaded back into the returned channel. -/
def Channel.create_lockedtransfer (c : Channel) (amount expiration : Int)
    (hashlock : HashVal) : Except RErr (LockedTransfer × Channel) :=
  if ¬c.isopen then
    .error (.valueError "The channel is closed")
  else
    let block_number := c.external_state.block_number
    if expiration - block_number ≥ c.settle_timeout then
      .error (.valueError "Invalid expiration")
    else if expiration - c.reveal_timeout < block_number then
      .error (.valueError "Invalid expiration")
    else
      let from_ := c.our_state
      let to_ := c.partner_state
      let distributable := from_.distributable to_
      if amount ≤ 0 ∨ amount > distributable then
        .error (.valueError "Insufficient funds")
      else
        let lock : Lock := ⟨amount, expiration, hashlock⟩
        match to_.locked.root_with (some lock) none with
        | .error e => .error e.1
        | .ok (updated_locksroot, locked1) =>
          .ok ({ nonce := from_.nonce
                 asset := c.asset_address
                 transfered_amount := from_.transfered_amount
                 recipient := to_.address
                 locksroot := updated_locksroot
                 lock := lock },
               { c with partner_state := { to_ with locked := locked1 } })

/-! ### Projections used to state concrete counterexamples and witnesses -/

/-- The error component of a fallible result, if any. -/
def errOf {ε α : Type} : Except ε α → Option ε
  | .error e => some e
  | .ok _ => none

/-- Whether a fallible result succeeded. -/
def okB {ε α : Type} : Except ε α → Bool
  | .ok _ => true
  | .error _ => false

/-- The exception kind of a state-carrying channel-operation result. -/
def regErrKind (r : Except (RErr × Channel) Channel) : Option RErr :=
  (errOf r).map Prod.fst

/-- The channel state carried by a raised channel-operation exception. -/
def regErrChannel (r : Except (RErr × Channel) Channel) : Option Channel :=
  (errOf r).map Prod.snd

/-- The root returned by a successful `root_with` call. -/
def rootOf (r : Except (RErr × LockedTransfers) (HashVal × LockedTransfers)) :
    Option HashVal :=
  match r with
  | .ok (v, _) => some v
  | .error _ => none

/-! ### Helper lemmas about the lock container -/

/-- Erasing a freshly appended element that was not already present restores
the list. -/
theorem erase_append_self_of_not_mem {a : HashVal} {l : List HashVal}
    (h : a ∉ l) : (l ++ [a]).erase a = l := by
  rw [List.erase_append_right _ h, List.erase_cons_head, List.append_nil]

/-- Erasing a present element and re-appending it permutes the list. -/
theorem perm_erase_append {a : HashVal} {l : List HashVal} (h : a ∈ l) :
    List.Perm (l.erase a ++ [a]) l := by
  exact (List.perm_append_singleton a _).trans (List.perm_cons_erase h).symm

/-- Appending an element and erasing its first occurrence permutes back. -/
theorem perm_append_erase {a : HashVal} {l : List HashVal} :
    List.Perm ((l ++ [a]).erase a) l := by
  have hmem : a ∈ l ++ [a] := List.mem_append_right l (List.mem_singleton.mpr rfl)
  have h1 : List.Perm (l ++ [a]) (a :: (l ++ [a]).erase a) := List.perm_cons_erase hmem
  have h2 : List.Perm (l ++ [a]) (a :: l) := List.perm_append_singleton a l
  exact List.Perm.cons_inv (h1.symm.trans h2)

/-- `root_with(include)` always succeeds and returns the root over the
sequence with the include hash appended, erasing that hash's first occurrence
afterwards. -/
theorem root_with_include (s : LockedTransfers) (l : Lock) :
    s.root_with (some l) none =
      .ok (merkleroot (s.cached_lock_hashes ++ [sha3_lock_bytes l]),
           { s with cached_lock_hashes := (s.cached_lock_hashes ++ [sha3_lock_bytes l]).erase (sha3_lock_bytes l) }) := by
  have hmem : sha3_lock_bytes l ∈ s.cached_lock_hashes ++ [sha3_lock_bytes l] :=
    List.mem_append_right _ (List.mem_singleton.mpr rfl)
  simp [LockedTransfers.root_with, hmem]

/-- With a fresh include hash, `root_with(include)` leaves the container
untouched. -/
theorem root_with_include_fresh (s : LockedTransfers) (l : Lock)
    (h : sha3_lock_bytes l ∉ s.cached_lock_hashes) :
    s.root_with (some l) none =
      .ok (merkleroot (s.cached_lock_hashes ++ [sha3_lock_bytes l]), s) := by
  rw [root_with_include, erase_append_self_of_not_mem h]

/-- `root_with(exclude)` with the exclude hash present: success, with the
sequence rotated (erase then re-append). -/
theorem root_with_exclude_mem (s : LockedTransfers) (ex : Lock)
    (h : sha3_lock_bytes ex ∈ s.cached_lock_hashes) :
    s.root_with none (some ex) =
      .ok (merkleroot (s.cached_lock_hashes.erase (sha3_lock_bytes ex)),
           { s with cached_lock_hashes :=
               s.cached_lock_hashes.erase (sha3_lock_bytes ex) ++
                 [sha3_lock_bytes ex] }) := by
  simp [LockedTransfers.root_with, h]

/-- `root_with(exclude)` with the exclude hash absent raises `ValueError`
(from `list.remove`), leaving the sequence unchanged. -/
theorem root_with_exclude_not_mem (s : LockedTransfers) (ex : Lock)
    (h : sha3_lock_bytes ex ∉ s.cached_lock_hashes) :
    s.root_with none (some ex) =
      .error (.valueError "list.remove(x): x not in list", s) := by
  simp [LockedTransfers.root_with, h]

/-- Class invariant: a tracked transfer's lock hash is in the cached
sequence. -/
theorem wf_hash_mem {s : LockedTransfers} (hwf : s.wf) {hl : HashVal}
    {tr : LockedTransfer} (hlook : s.lookup hl = some tr) :
    sha3_lock_bytes tr.lock ∈ s.cached_lock_hashes := by
  obtain ⟨hcache, _⟩ := hwf
  unfold LockedTransfers.lookup at hlook
  rcases hfind : s.locked.find? (fun p => p.1 = hl) with _ | p
  · rw [hfind] at hlook; simp at hlook
  · rw [hfind] at hlook
    simp only [Option.map] at hlook
    injection hlook with hlook
    have hmem := List.mem_of_find?_eq_some hfind
    rw [hcache]
    exact hlook ▸ List.mem_map_of_mem _ hmem

/-- Permutation-form invariant: a tracked transfer's lock hash is in the
cached sequence. -/
theorem wfPerm_hash_mem {s : LockedTransfers} (hwf : s.wfPerm) {hl : HashVal}
    {tr : LockedTransfer} (hlook : s.lookup hl = some tr) :
    sha3_lock_bytes tr.lock ∈ s.cached_lock_hashes := by
  obtain ⟨hperm, _⟩ := hwf
  unfold LockedTransfers.lookup at hlook
  rcases hfind : s.locked.find? (fun p => p.1 = hl) with _ | p
  · rw [hfind] at hlook; simp at hlook
  · rw [hfind] at hlook
    simp only [Option.map] at hlook
    injection hlook with hlook
    have hmem := List.mem_of_find?_eq_some hfind
    exact hperm.mem_iff.mpr (hlook ▸ List.mem_map_of_mem _ hmem)

/-- Reading the `root` property either leaves the container untouched
(cache hit) or fills the empty cache with the root of the current
sequence. -/
theorem root_cases (s : LockedTransfers) :
    (s.root).2 = s
    ∨ (s.cached_root = none
       ∧ (s.root).2
         = { s with cached_root := some (merkleroot s.cached_lock_hashes) }) := by
  unfold LockedTransfers.root
  split
  next r heq => exact Or.inl rfl
  next heq => exact Or.inr ⟨heq, rfl⟩

/-- Reading the `root` property only fills the cache: mapping and hash
sequence are untouched. -/
theorem root_preserves (s : LockedTransfers) :
    (s.root).2.locked = s.locked
    ∧ (s.root).2.cached_lock_hashes = s.cached_lock_hashes := by
  unfold LockedTransfers.root
  split <;> exact ⟨rfl, rfl⟩

/-- Class invariant: a hashlock that is not tracked has a lock hash absent
from the cached sequence (the hash constructor is injective). -/
theorem wf_hash_not_mem {s : LockedTransfers} (hwf : s.wf) {l : Lock}
    (hlook : s.lookup l.hashlock = none) :
    sha3_lock_bytes l ∉ s.cached_lock_hashes := by
  obtain ⟨hcache, hkeys⟩ := hwf
  intro hmem
  rw [hcache] at hmem
  obtain ⟨p, hp, hph⟩ := List.mem_map.mp hmem
  unfold LockedTransfers.lookup at hlook
  rcases hfind : s.locked.find? (fun q => q.1 = l.hashlock) with _ | q
  · have hnone := List.find?_eq_none.mp hfind p hp
    simp only [decide_eq_true_eq] at hnone
    apply hnone
    have : p.2.lock.hashlock = l.hashlock := by
      unfold sha3_lock_bytes at hph
      injection hph
    rw [hkeys p hp, this]
  · rw [hfind] at hlook; simp at hlook

/-- `remove` errors carry the container unchanged. -/
theorem remove_error_state {s s' : LockedTransfers} {hl : HashVal} {e : RErr}
    (h : s.remove hl = .error (e, s')) : s' = s := by
  unfold LockedTransfers.remove at h
  rcases hfind : s.lookup hl with _ | tr <;> rw [hfind] at h
  · cases h; rfl
  · by_cases hmem : sha3_lock_bytes tr.lock ∈ s.cached_lock_hashes <;>
      simp [hmem] at h
    exact h.2.symm

/-- On a tracked hashlock whose lock hash is cached, `remove` succeeds. -/
theorem remove_ok {s : LockedTransfers} {hl : HashVal} {tr : LockedTransfer}
    (hlook : s.lookup hl = some tr)
    (hmem : sha3_lock_bytes tr.lock ∈ s.cached_lock_hashes) :
    s.remove hl =
      .ok { locked := s.locked.eraseP (fun p => p.1 = hl)
            cached_lock_hashes := s.cached_lock_hashes.erase (sha3_lock_bytes tr.lock)
            cached_root := none } := by
  unfold LockedTransfers.remove
  rw [hlook]
  simp [hmem]

/-- `add` on a fresh hashlock succeeds with the expected container. -/
theorem add_ok {s : LockedTransfers} {t : LockedTransfer}
    (h : s.lookup t.lock.hashlock = none) :
    s.add t =
      .ok { locked := s.locked ++ [(t.lock.hashlock, t)]
            cached_lock_hashes := s.cached_lock_hashes ++ [sha3_lock_bytes t.lock]
            cached_root := none } := by
  unfold LockedTransfers.add LockedTransfers.mem
  rw [h]
  rfl

/-- Error exit of the critical write section: the partner's credit has
already been written when `remove` raises. -/
theorem claim_write_error_state {self partner self' partner' : ChannelEndState}
    {hl : HashVal} {lock : Lock} {locked1 : LockedTransfers} {e : RErr}
    (h : self.claim_write partner hl lock locked1 = .error (e, self', partner')) :
    self' = { self with locked := locked1 } ∧
    partner' = { partner with
      transfered_amount := partner.transfered_amount + lock.amount } := by
  unfold ChannelEndState.claim_write at h
  split at h
  next heq =>
    cases h
    exact ⟨by rw [remove_error_state heq], rfl⟩
  next => cases h

/-- Success exit of the critical write section. -/
theorem claim_write_ok_state {self partner self' partner' : ChannelEndState}
    {hl : HashVal} {lock : Lock} {locked1 : LockedTransfers}
    (h : self.claim_write partner hl lock locked1 = .ok (self', partner')) :
    ∃ locked2, locked1.remove hl = .ok locked2 ∧
      self' = { self with locked := locked2 } ∧
      partner' = { partner with
        transfered_amount := partner.transfered_amount + lock.amount } := by
  unfold ChannelEndState.claim_write at h
  split at h
  next => cases h
  next locked2 heq =>
    cases h
    exact ⟨locked2, heq, rfl, rfl⟩

/-- On any error exit of `ChannelEndState.claim_locked` the nonces and
addresses of both endpoint objects are untouched (no code path writes
them). -/
theorem claim_locked_error_nonce {self partner self' partner' : ChannelEndState}
    {secret : Nat} {lr : Option HashVal} {e : RErr}
    (h : self.claim_locked partner secret lr = .error (e, self', partner')) :
    self'.nonce = self.nonce ∧ partner'.nonce = partner.nonce ∧
    self'.address = self.address ∧ partner'.address = partner.address := by
  simp only [ChannelEndState.claim_locked] at h
  rcases hlook : self.locked.lookup (HashVal.sha3Secret secret) with _ | transfer <;>
    rw [hlook] at h <;> simp only [] at h
  · cases h
    exact ⟨rfl, rfl, rfl, rfl⟩
  · repeat' split at h
    all_goals first
      | (cases h; exact ⟨rfl, rfl, rfl, rfl⟩)
      | (obtain ⟨h1, h2⟩ := claim_write_error_state h
         rw [h1, h2]
         exact ⟨rfl, rfl, rfl, rfl⟩)

/-- On the success exit of `ChannelEndState.claim_locked` the nonces and
addresses of both endpoint objects are untouched. -/
theorem claim_locked_ok_nonce {self partner self' partner' : ChannelEndState}
    {secret : Nat} {lr : Option HashVal}
    (h : self.claim_locked partner secret lr = .ok (self', partner')) :
    self'.nonce = self.nonce ∧ partner'.nonce = partner.nonce ∧
    self'.address = self.address ∧ partner'.address = partner.address := by
  simp only [ChannelEndState.claim_locked] at h
  rcases hlook : self.locked.lookup (HashVal.sha3Secret secret) with _ | transfer <;>
    rw [hlook] at h <;> simp only [] at h
  · cases h
  · repeat' split at h
    all_goals first
      | cases h
      | (obtain ⟨locked2, _, h1, h2⟩ := claim_write_ok_state h
         rw [h1, h2]
         exact ⟨rfl, rfl, rfl, rfl⟩)

/-- Error frame of `ChannelEndState.claim_locked` for a lock container
satisfying the permutation-form invariant: the partner object and all
scalar fields of `self` are unchanged, the lock mapping and the cached root
are unchanged, and the cached hash sequence is at worst permuted. -/
theorem claim_locked_error_frame {self partner self' partner' : ChannelEndState}
    {secret : Nat} {lr : Option HashVal} {e : RErr}
    (hwf : self.locked.wfPerm)
    (h : self.claim_locked partner secret lr = .error (e, self', partner')) :
    partner' = partner
    ∧ self'.address = self.address
    ∧ self'.nonce = self.nonce
    ∧ self'.transfered_amount = self.transfered_amount
    ∧ self'.contract_balance = self.contract_balance
    ∧ self'.locked.locked = self.locked.locked
    ∧ self'.locked.cached_root = self.locked.cached_root
    ∧ List.Perm self'.locked.cached_lock_hashes self.locked.cached_lock_hashes := by
  simp only [ChannelEndState.claim_locked] at h
  rcases hlook : self.locked.lookup (HashVal.sha3Secret secret) with _ | transfer <;>
    rw [hlook] at h <;> simp only [] at h
  · cases h
    exact ⟨rfl, rfl, rfl, rfl, rfl, rfl, rfl, List.Perm.refl _⟩
  · have hmem : sha3_lock_bytes transfer.lock ∈ self.locked.cached_lock_hashes :=
      wfPerm_hash_mem hwf hlook
    rcases lr with _ | r0 <;> simp only [] at h
    · -- no locksroot check: the write section succeeds, so no error is possible
      exact absurd h (by
        unfold ChannelEndState.claim_write
        rw [remove_ok hlook hmem]
        simp)
    · rw [root_with_exclude_mem self.locked transfer.lock hmem] at h
      simp only [] at h
      by_cases hroot :
          merkleroot (self.locked.cached_lock_hashes.erase
            (sha3_lock_bytes transfer.lock)) ≠ r0
      · rw [if_pos hroot] at h
        cases h
        refine ⟨rfl, rfl, rfl, rfl, rfl, rfl, rfl, ?_⟩
        exact perm_erase_append hmem
      · rw [if_neg hroot] at h
        -- the remove on the rotated container succeeds, so no error here
        have hlook1 :
            LockedTransfers.lookup
              { self.locked with cached_lock_hashes :=
                  self.locked.cached_lock_hashes.erase (sha3_lock_bytes transfer.lock)
                    ++ [sha3_lock_bytes transfer.lock] }
              (HashVal.sha3Secret secret) = some transfer := hlook
        have hmem1 : sha3_lock_bytes transfer.lock ∈
            self.locked.cached_lock_hashes.erase (sha3_lock_bytes transfer.lock)
              ++ [sha3_lock_bytes transfer.lock] :=
          List.mem_append_right _ (List.mem_singleton.mpr rfl)
        exact absurd h (by
          unfold ChannelEndState.claim_write
          rw [remove_ok hlook1 hmem1]
          simp)

/-- Nonce/address frame of the `LockedTransfer` branch on any raising
exit. -/
theorem register_locked_error_nonce {c c' : Channel} {lt : LockedTransfer}
    {side : Side} {e : RErr}
    (h : c.register_locked lt side = .error (e, c')) :
    c'.our_state.nonce = c.our_state.nonce ∧
    c'.partner_state.nonce = c.partner_state.nonce ∧
    c'.our_state.address = c.our_state.address ∧
    c'.partner_state.address = c.partner_state.address := by
  cases side <;>
    simp only [Channel.register_locked, Channel.stateOf, Channel.setState,
      Side.other] at h <;>
    repeat' split at h
  all_goals cases h
  all_goals exact ⟨rfl, rfl, rfl, rfl⟩

/-- Nonce/address frame of the `DirectTransfer` branch on any raising
exit. -/
theorem register_direct_error_nonce {c c' : Channel} {dt : DirectTransfer}
    {side : Side} {e : RErr}
    (h : c.register_direct dt side = .error (e, c')) :
    c'.our_state.nonce = c.our_state.nonce ∧
    c'.partner_state.nonce = c.partner_state.nonce ∧
    c'.our_state.address = c.our_state.address ∧
    c'.partner_state.address = c.partner_state.address := by
  cases side <;>
    simp only [Channel.register_direct, Channel.stateOf, Channel.setState,
      Side.other] at h <;>
    repeat' split at h
  all_goals cases h
  all_goals rename_i heq
  all_goals obtain ⟨h1, h2, h3, h4⟩ := claim_locked_error_nonce heq
  all_goals first
    | exact ⟨h1, h2, h3, h4⟩
    | exact ⟨h2, h1, h4, h3⟩

/-- On any raising exit of `register_transfer_from_to`, the nonces and
addresses of both endpoints are untouched (unconditionally: no error path
writes them). -/
theorem register_from_to_error_nonce {c c' : Channel} {t : Transfer}
    {side : Side} {e : RErr}
    (h : c.register_transfer_from_to t side = .error (e, c')) :
    c'.our_state.nonce = c.our_state.nonce ∧
    c'.partner_state.nonce = c.partner_state.nonce ∧
    c'.our_state.address = c.our_state.address ∧
    c'.partner_state.address = c.partner_state.address := by
  simp only [Channel.register_transfer_from_to] at h
  split at h
  · cases h
    exact ⟨rfl, rfl, rfl, rfl⟩
  · split at h
    · split at h
      · rename_i heq
        cases h
        exact register_locked_error_nonce heq
      · cases h
    · split at h
      · rename_i heq
        cases h
        exact register_direct_error_nonce heq
      · cases h

/-- Success of the `LockedTransfer` branch advances the sender nonce by 1
and leaves the receiver nonce and both addresses unchanged. -/
theorem register_locked_ok_nonce {c c' : Channel} {lt : LockedTransfer}
    {side : Side}
    (h : c.register_locked lt side = .ok c') :
    (c'.stateOf side).nonce = (c.stateOf side).nonce + 1 ∧
    (c'.stateOf side.other).nonce = (c.stateOf side.other).nonce ∧
    (c'.stateOf side).address = (c.stateOf side).address ∧
    (c'.stateOf side.other).address = (c.stateOf side.other).address := by
  cases side <;>
    simp only [Channel.register_locked, Channel.stateOf, Channel.setState,
      Side.other] at h ⊢ <;>
    repeat' split at h
  all_goals cases h
  all_goals exact ⟨rfl, rfl, rfl, rfl⟩

/-- Success of the `DirectTransfer` branch advances the sender nonce by 1
and leaves the receiver nonce and both addresses unchanged. -/
theorem register_direct_ok_nonce {c c' : Channel} {dt : DirectTransfer}
    {side : Side}
    (h : c.register_direct dt side = .ok c') :
    (c'.stateOf side).nonce = (c.stateOf side).nonce + 1 ∧
    (c'.stateOf side.other).nonce = (c.stateOf side.other).nonce ∧
    (c'.stateOf side).address = (c.stateOf side).address ∧
    (c'.stateOf side.other).address = (c.stateOf side.other).address := by
  cases side <;>
    simp only [Channel.register_direct, Channel.stateOf, Channel.setState,
      Side.other] at h ⊢ <;>
    repeat' split at h
  all_goals cases h
  all_goals try exact ⟨rfl, rfl, rfl, rfl⟩
  all_goals rename_i heq
  all_goals obtain ⟨h1, h2, h3, h4⟩ := claim_locked_ok_nonce heq
  all_goals first
    | exact ⟨by rw [h1], by rw [h2], by rw [h3], by rw [h4]⟩
    | exact ⟨by rw [h2], by rw [h1], by rw [h4], by rw [h3]⟩

/-- The success-path log read touches only the recipient container's root
cache: nonces, addresses and amounts of both endpoints are unchanged. -/
theorem log_registered_stateOf (c : Channel) (a b : Side) :
    ((c.log_registered a).stateOf b).nonce = (c.stateOf b).nonce
    ∧ ((c.log_registered a).stateOf b).address = (c.stateOf b).address := by
  cases a <;> cases b <;> exact ⟨rfl, rfl⟩

/-- On the success exit of `register_transfer_from_to`, the sender
endpoint's nonce advances by exactly 1 and the receiver endpoint's nonce is
unchanged; addresses are untouched. -/
theorem register_from_to_ok_nonce {c c' : Channel} {t : Transfer} {side : Side}
    (h : c.register_transfer_from_to t side = .ok c') :
    (c'.stateOf side).nonce = (c.stateOf side).nonce + 1 ∧
    (c'.stateOf side.other).nonce = (c.stateOf side.other).nonce ∧
    (c'.stateOf side).address = (c.stateOf side).address ∧
    (c'.stateOf side.other).address = (c.stateOf side.other).address := by
  simp only [Channel.register_transfer_from_to] at h
  split at h
  · cases h
  · split at h
    · split at h
      · cases h
      · rename_i c1 heq
        cases h
        obtain ⟨h1, h2, h3, h4⟩ := register_locked_ok_nonce heq
        exact ⟨(log_registered_stateOf c1 side.other side).1.trans h1,
          (log_registered_stateOf c1 side.other side.other).1.trans h2,
          (log_registered_stateOf c1 side.other side).2.trans h3,
          (log_registered_stateOf c1 side.other side.other).2.trans h4⟩
    · split at h
      · cases h
      · rename_i c1 heq
        cases h
        obtain ⟨h1, h2, h3, h4⟩ := register_direct_ok_nonce heq
        exact ⟨(log_registered_stateOf c1 side.other side).1.trans h1,
          (log_registered_stateOf c1 side.other side.other).1.trans h2,
          (log_registered_stateOf c1 side.other side).2.trans h3,
          (log_registered_stateOf c1 side.other side.other).2.trans h4⟩

/-- Observable-state frame between two endpoint states: all scalar fields
agree, the lock mapping agrees, the cached hash sequence agrees up to
permutation, and the root cache is either untouched or (as the eager log
read of the `root` property can do) freshly filled with the root of the
current sequence. -/
def endFrame (a b : ChannelEndState) : Prop :=
  a.address = b.address
  ∧ a.nonce = b.nonce
  ∧ a.transfered_amount = b.transfered_amount
  ∧ a.contract_balance = b.contract_balance
  ∧ a.locked.locked = b.locked.locked
  ∧ (a.locked.cached_root = b.locked.cached_root
     ∨ (b.locked.cached_root = none
        ∧ a.locked.cached_root
          = some (merkleroot a.locked.cached_lock_hashes)))
  ∧ List.Perm a.locked.cached_lock_hashes b.locked.cached_lock_hashes

/-- Error frame of a register call whose sender is `side`: the sender
endpoint is exactly unchanged, the recipient endpoint satisfies `endFrame`,
and every other channel field is equal. -/
def channelFrameAt (a b : Channel) (side : Side) : Prop :=
  a.stateOf side = b.stateOf side
  ∧ endFrame (a.stateOf side.other) (b.stateOf side.other)
  ∧ a.external_state = b.external_state
  ∧ a.asset_address = b.asset_address
  ∧ a.reveal_timeout = b.reveal_timeout
  ∧ a.settle_timeout = b.settle_timeout
  ∧ a.received_transfers = b.received_transfers
  ∧ a.sent_transfers = b.sent_transfers

theorem endFrame_refl (a : ChannelEndState) : endFrame a a :=
  ⟨rfl, rfl, rfl, rfl, rfl, Or.inl rfl, List.Perm.refl _⟩

theorem channelFrameAt_refl (a : Channel) (side : Side) :
    channelFrameAt a a side :=
  ⟨rfl, endFrame_refl _, rfl, rfl, rfl, rfl, rfl, rfl⟩

/-- The endpoint obtained by swapping in a container whose mapping, cache
and (up to permutation) sequence agree with the original, after an eager
`root` read, is in frame with the original endpoint. -/
theorem endFrame_root_fill (t : ChannelEndState) (l1 : LockedTransfers)
    (hmap : l1.locked = t.locked.locked)
    (hcache : l1.cached_root = t.locked.cached_root)
    (hperm : List.Perm l1.cached_lock_hashes t.locked.cached_lock_hashes) :
    endFrame { t with locked := (l1.root).2 } t := by
  refine ⟨rfl, rfl, rfl, rfl, ?_, ?_, ?_⟩
  · rw [(root_preserves l1).1, hmap]
  · rcases root_cases l1 with heq | ⟨hnone, heq⟩
    · rw [heq]
      exact Or.inl hcache
    · rw [heq]
      exact Or.inr ⟨hcache ▸ hnone, rfl⟩
  · rw [(root_preserves l1).2]
    exact hperm

/-- On any raising exit of the `LockedTransfer` branch, the channel is in
frame with its pre-call state (unconditionally): the only disturbances are
a possible permutation of the `to`-side hash sequence left by `root_with`
and, on the locksroot-mismatch path, the root-cache fill done by the error
log's eager read of the `root` property. -/
theorem register_locked_error_frame {c c' : Channel} {lt : LockedTransfer}
    {side : Side} {e : RErr}
    (h : c.register_locked lt side = .error (e, c')) :
    channelFrameAt c' c side := by
  cases side <;>
    simp only [Channel.register_locked, Channel.stateOf, Channel.setState,
      Side.other] at h <;>
    rw [root_with_include] at h <;>
    simp only [] at h <;>
    repeat' split at h
  all_goals cases h
  all_goals first
    | exact channelFrameAt_refl c _
    | exact ⟨rfl, endFrame_root_fill _ _ rfl rfl perm_append_erase,
        rfl, rfl, rfl, rfl, rfl, rfl⟩
    | exact ⟨rfl, ⟨rfl, rfl, rfl, rfl, rfl, Or.inl rfl, perm_append_erase⟩,
        rfl, rfl, rfl, rfl, rfl, rfl⟩

/-- On any raising exit of the `DirectTransfer` branch over a `to`-side
container satisfying the permutation-form invariant, the channel is in
frame with its pre-call state. -/
theorem register_direct_error_frame {c c' : Channel} {dt : DirectTransfer}
    {side : Side} {e : RErr}
    (hwf : ((c.stateOf side.other).locked).wfPerm)
    (h : c.register_direct dt side = .error (e, c')) :
    channelFrameAt c' c side := by
  cases side <;>
    simp only [Channel.register_direct, Channel.stateOf, Channel.setState,
      Side.other] at h hwf <;>
    repeat' split at h
  all_goals cases h
  all_goals rename_i heq
  all_goals obtain ⟨hp, h1, h2, h3, h4, h5, h6, h7⟩ :=
    claim_locked_error_frame hwf heq
  all_goals rw [hp]
  all_goals exact ⟨rfl, ⟨h1, h2, h3, h4, h5, Or.inl h6, h7⟩,
    rfl, rfl, rfl, rfl, rfl, rfl⟩

/-- On any raising exit of `register_transfer_from_to` over a `to`-side
container satisfying the permutation-form invariant, the channel is in
frame with its pre-call state. -/
theorem register_from_to_error_frame {c c' : Channel} {t : Transfer}
    {side : Side} {e : RErr}
    (hwf : ((c.stateOf side.other).locked).wfPerm)
    (h : c.register_transfer_from_to t side = .error (e, c')) :
    channelFrameAt c' c side := by
  simp only [Channel.register_transfer_from_to] at h
  split at h
  · cases h
    exact channelFrameAt_refl c side
  · split at h
    · split at h
      · rename_i heq
        cases h
        exact register_locked_error_frame heq
      · cases h
    · split at h
      · rename_i heq
        cases h
        exact register_direct_error_frame hwf heq
      · cases h

/-- Nonce/address frame of `Channel.register_transfer` on any raising
exit. -/
theorem register_transfer_error_nonce {c c' : Channel} {t : Transfer} {e : RErr}
    (h : c.register_transfer t = .error (e, c')) :
    c'.our_state.nonce = c.our_state.nonce ∧
    c'.partner_state.nonce = c.partner_state.nonce := by
  unfold Channel.register_transfer at h
  repeat' split at h
  all_goals cases h
  all_goals try exact ⟨rfl, rfl⟩
  all_goals rename_i heq
  all_goals exact ⟨(register_from_to_error_nonce heq).1,
    (register_from_to_error_nonce heq).2.1⟩

/-- `Channel.register_transfer` success advances exactly one endpoint's
nonce by 1 (the routed sender side) and leaves the other unchanged. -/
theorem register_transfer_ok_nonce {c c' : Channel} {t : Transfer}
    (h : c.register_transfer t = .ok c') :
    (c'.our_state.nonce = c.our_state.nonce + 1 ∧
      c'.partner_state.nonce = c.partner_state.nonce)
    ∨ (c'.partner_state.nonce = c.partner_state.nonce + 1 ∧
      c'.our_state.nonce = c.our_state.nonce) := by
  unfold Channel.register_transfer at h
  repeat' split at h
  all_goals cases h
  all_goals rename_i heq
  · exact Or.inl ⟨(register_from_to_ok_nonce heq).1,
      (register_from_to_ok_nonce heq).2.1⟩
  · exact Or.inr ⟨(register_from_to_ok_nonce heq).1,
      (register_from_to_ok_nonce heq).2.1⟩

/-- Nonce frame of `Channel.claim_locked` on any raising exit. -/
theorem channel_claim_error_nonce {c c' : Channel} {secret : Nat}
    {lr : Option HashVal} {e : RErr}
    (h : c.claim_locked secret lr = .error (e, c')) :
    c'.our_state.nonce = c.our_state.nonce ∧
    c'.partner_state.nonce = c.partner_state.nonce := by
  unfold Channel.claim_locked at h
  by_cases h1 : (c.our_state.locked.lookup (HashVal.sha3Secret secret)).isSome = true
  · rw [if_pos h1] at h
    split at h
    · rename_i heq
      cases h
      exact ⟨(claim_locked_error_nonce heq).1, (claim_locked_error_nonce heq).2.1⟩
    · cases h
  · rw [if_neg h1] at h
    by_cases h2 :
        (c.partner_state.locked.lookup (HashVal.sha3Secret secret)).isSome = true
    · rw [if_pos h2] at h
      split at h
      · rename_i heq
        cases h
        exact ⟨(claim_locked_error_nonce heq).2.1, (claim_locked_error_nonce heq).1⟩
      · cases h
    · rw [if_neg h2] at h
      cases h
      exact ⟨rfl, rfl⟩

/-- Nonce frame of `Channel.claim_locked` on success. -/
theorem channel_claim_ok_nonce {c c' : Channel} {secret : Nat}
    {lr : Option HashVal}
    (h : c.claim_locked secret lr = .ok c') :
    c'.our_state.nonce = c.our_state.nonce ∧
    c'.partner_state.nonce = c.partner_state.nonce := by
  unfold Channel.claim_locked at h
  by_cases h1 : (c.our_state.locked.lookup (HashVal.sha3Secret secret)).isSome = true
  · rw [if_pos h1] at h
    split at h
    · cases h
    · rename_i heq
      cases h
      exact ⟨(claim_locked_ok_nonce heq).1, (claim_locked_ok_nonce heq).2.1⟩
  · rw [if_neg h1] at h
    by_cases h2 :
        (c.partner_state.locked.lookup (HashVal.sha3Secret secret)).isSome = true
    · rw [if_pos h2] at h
      split at h
      · cases h
      · rename_i heq
        cases h
        exact ⟨(claim_locked_ok_nonce heq).2.1, (claim_locked_ok_nonce heq).1⟩
    · rw [if_neg h2] at h
      cases h

/-- `create_directtransfer` touches nothing but the partner container's
root cache: our endpoint is returned verbatim and partner scalars are
unchanged. -/
theorem create_direct_ok_state {c c' : Channel} {msg : DirectTransfer}
    {amount : Int} {secret : Option Nat}
    (h : c.create_directtransfer amount secret = .ok (msg, c')) :
    c'.our_state = c.our_state ∧
    c'.partner_state.nonce = c.partner_state.nonce ∧
    c'.partner_state.address = c.partner_state.address := by
  unfold Channel.create_directtransfer at h
  split at h
  · cases h
  · simp only [] at h
    split at h
    · cases h
    · cases h
      exact ⟨rfl, rfl, rfl⟩

/-- `create_lockedtransfer` touches nothing but the partner container's
hash sequence (restored by `root_with`): our endpoint is returned verbatim
and partner scalars are unchanged. -/
theorem create_locked_ok_state {c c' : Channel} {msg : LockedTransfer}
    {amount expiration : Int} {hashlock : HashVal}
    (h : c.create_lockedtransfer amount expiration hashlock = .ok (msg, c')) :
    c'.our_state = c.our_state ∧
    c'.partner_state.nonce = c.partner_state.nonce ∧
    c'.partner_state.address = c.partner_state.address := by
  unfold Channel.create_lockedtransfer at h
  split at h
  · cases h
  · simp only [] at h
    split at h
    · cases h
    · split at h
      · cases h
      · split at h
        · cases h
        · split at h
          · cases h
          · cases h
            exact ⟨rfl, rfl, rfl⟩

/-- The channel states reachable by the engine's operations from a freshly
opened channel: both successful and raising calls are steps (a Python
object survives an exception in whatever state the raise left it). -/
inductive Reachable : Channel → Prop where
  | init (our_address : Nat) (our_balance : Int) (partner_address : Nat)
      (partner_balance : Int) (ext : ChannelExternalState) (asset : Nat)
      (reveal settle : Int) :
      Reachable (Channel.init our_address our_balance partner_address
        partner_balance ext asset reveal settle)
  | register_ok {c c' : Channel} (t : Transfer) :
      Reachable c → c.register_transfer t = .ok c' → Reachable c'
  | register_err {c c' : Channel} (t : Transfer) (e : RErr) :
      Reachable c → c.register_transfer t = .error (e, c') → Reachable c'
  | claim_ok {c c' : Channel} (secret : Nat) (lr : Option HashVal) :
      Reachable c → c.claim_locked secret lr = .ok c' → Reachable c'
  | claim_err {c c' : Channel} (secret : Nat) (lr : Option HashVal) (e : RErr) :
      Reachable c → c.claim_locked secret lr = .error (e, c') → Reachable c'
  | create_direct {c c' : Channel} {msg : DirectTransfer}
      (amount : Int) (secret : Option Nat) :
      Reachable c → c.create_directtransfer amount secret = .ok (msg, c') →
      Reachable c'
  | create_locked {c c' : Channel} {msg : LockedTransfer}
      (amount expiration : Int) (hashlock : HashVal) :
      Reachable c → c.create_lockedtransfer amount expiration hashlock =
        .ok (msg, c') → Reachable c'
  | update_balance {c : Channel} (side : Side) (b : Int) :
      Reachable c →
      Reachable (c.setState side ((c.stateOf side).update_contract_balance b))

/-- Both endpoint nonces are at least 1 in every reachable channel state. -/
theorem reachable_nonce_ge_one {c : Channel} (hr : Reachable c) :
    1 ≤ c.our_state.nonce ∧ 1 ≤ c.partner_state.nonce := by
  induction hr with
  | init =>
    exact ⟨le_refl 1, le_refl 1⟩
  | register_ok t hr heq ih =>
    rcases register_transfer_ok_nonce heq with ⟨h1, h2⟩ | ⟨h1, h2⟩ <;> omega
  | register_err t e hr heq ih =>
    obtain ⟨h1, h2⟩ := register_transfer_error_nonce heq
    omega
  | claim_ok secret lr hr heq ih =>
    obtain ⟨h1, h2⟩ := channel_claim_ok_nonce heq
    omega
  | claim_err secret lr e hr heq ih =>
    obtain ⟨h1, h2⟩ := channel_claim_error_nonce heq
    omega
  | create_direct amount secret hr heq ih =>
    obtain ⟨h1, h2, _⟩ := create_direct_ok_state heq
    rw [h1]
    omega
  | create_locked amount expiration hashlock hr heq ih =>
    obtain ⟨h1, h2, _⟩ := create_locked_ok_state heq
    rw [h1]
    omega
  | update_balance side b hr ih =>
    cases side <;>
      simpa [Channel.setState, Channel.stateOf,
        ChannelEndState.update_contract_balance] using ih

/-! ### Concrete fixtures -/

/-- An open channel's external state at block 0. -/
def extOpen : ChannelExternalState :=
  { opened_block := 1, closed_block := 0, settled_block := 0, block_number := 0,
    registered_hashlocks := [] }

/-- A closed channel's external state. -/
def extClosed : ChannelExternalState := { extOpen with closed_block := 5 }

def lockA : Lock := ⟨10, 10, HashVal.sha3Secret 7⟩

def lockB : Lock := ⟨5, 10, HashVal.sha3Secret 8⟩

def transferA : LockedTransfer :=
  { nonce := 1, asset := 5, transfered_amount := 0, recipient := 1,
    locksroot := HashVal.zero, lock := lockA, sender := 2 }

def transferB : LockedTransfer :=
  { nonce := 2, asset := 5, transfered_amount := 0, recipient := 1,
    locksroot := HashVal.zero, lock := lockB, sender := 2 }

/-- A container holding `lockA` then `lockB`, in that insertion order. -/
def locksetAB : LockedTransfers :=
  { locked := [(lockA.hashlock, transferA), (lockB.hashlock, transferB)],
    cached_lock_hashes := [sha3_lock_bytes lockA, sha3_lock_bytes lockB],
    cached_root := none }

/-- Fresh open channel: we are address 1 with deposit 100, the partner is
address 2 with deposit 100, asset 5, reveal timeout 3, settle timeout 20. -/
def chanEmpty : Channel := Channel.init 1 100 2 100 extOpen 5 3 20

/-- `chanEmpty` with `lockA` and `lockB` pending on our side. -/
def chanLocksAB : Channel :=
  { chanEmpty with
    our_state := { ChannelEndState.init 1 100 with locked := locksetAB } }

/-- `chanEmpty` with `lockA` pending on the partner's side. -/
def chanPartnerLock : Channel :=
  { chanEmpty with
    partner_state := { ChannelEndState.init 2 100 with locked :=
      { locked := [(lockA.hashlock, transferA)],
        cached_lock_hashes := [sha3_lock_bytes lockA],
        cached_root := none } } }

/-- An inbound `DirectTransfer` carrying the secret of `lockA` but a wrong
locksroot. -/
def dtSecretBadRoot : DirectTransfer :=
  { nonce := 1, asset := 5, transfered_amount := 0, recipient := 1,
    locksroot := HashVal.zero, secret := some 7, sender := 2 }

/-- An inbound `LockedTransfer` violating both the settle-expiration window
(`expiration - block = 100 ≥ settle_timeout = 20`) and the locksroot
commitment. -/
def ltDoubleBad : LockedTransfer :=
  { nonce := 1, asset := 5, transfered_amount := 0, recipient := 1,
    locksroot := HashVal.zero, lock := ⟨10, 100, HashVal.sha3Secret 9⟩,
    sender := 2 }

/-- An inbound `DirectTransfer` with a mismatched asset address. -/
def dtAssetMismatch : DirectTransfer :=
  { nonce := 1, asset := 6, transfered_amount := 0, recipient := 1,
    locksroot := HashVal.zero, secret := none, sender := 2 }

/-! ### C1 -/

/-- **C1 counterexample**: two raising calls that leave the recipient's
lock container mutated.  (1) A `DirectTransfer` passing all six validation
checks with the secret of `lockA` but a wrong locksroot raises
`InvalidLocksRoot` with the recipient container's ordered hash sequence
rotated (`lockA`'s hash moved from front to back) by the
`root_with(exclude=...)` probe inside `claim_locked`.  (2) A
`LockedTransfer` with a mismatched locksroot raises `InvalidLocksRoot`
with the recipient container's root cache freshly filled (from `None` to
the computed root) by the error log's eager read of the `root` property.
Both refute "the state is never partially mutated". -/
theorem C1_counterexample :
    regErrKind (chanLocksAB.register_transfer_from_to
        (.direct dtSecretBadRoot) .partners) = some .invalidLocksRoot
    ∧ (regErrChannel (chanLocksAB.register_transfer_from_to
          (.direct dtSecretBadRoot) .partners)).map
        (fun ch => ch.our_state.locked.cached_lock_hashes)
      = some [sha3_lock_bytes lockB, sha3_lock_bytes lockA]
    ∧ chanLocksAB.our_state.locked.cached_lock_hashes
      = [sha3_lock_bytes lockA, sha3_lock_bytes lockB]
    ∧ ([sha3_lock_bytes lockB, sha3_lock_bytes lockA] : List HashVal)
      ≠ [sha3_lock_bytes lockA, sha3_lock_bytes lockB]
    ∧ regErrKind (chanEmpty.register_transfer_from_to
        (.locked ltDoubleBad) .partners) = some .invalidLocksRoot
    ∧ (regErrChannel (chanEmpty.register_transfer_from_to
          (.locked ltDoubleBad) .partners)).map
        (fun ch => ch.our_state.locked.cached_root)
      = some (some HashVal.zero)
    ∧ chanEmpty.our_state.locked.cached_root = none := by
  decide

/-- **C1 (amended)**: on any raising exit of `register_transfer_from_to`
over a recipient lock container whose hash cache matches its mapping as a
multiset, the sender endpoint is returned exactly unchanged and so are the
external state, the sent/received lists and the channel parameters; on the
recipient endpoint all scalar fields and the lock mapping are unchanged,
but the ordered hash sequence is preserved only up to permutation (the
`root_with` probes can rotate it) and the root cache is either untouched
or freshly filled with the root of the current sequence (the
locksroot-mismatch error log eagerly reads the `root` property before the
raise). -/
theorem C1_register_error_frame (c c' : Channel) (t : Transfer) (side : Side)
    (e : RErr) (hwf : ((c.stateOf side.other).locked).wfPerm)
    (h : c.register_transfer_from_to t side = .error (e, c')) :
    channelFrameAt c' c side :=
  register_from_to_error_frame hwf h

/-- Witness for `C1_register_error_frame` at a concrete raising call. -/
theorem C1_register_error_frame_witness :
    channelFrameAt chanEmpty chanEmpty .partners :=
  C1_register_error_frame chanEmpty chanEmpty (.direct dtAssetMismatch)
    .partners (.valueError "Asset address mismatch") (by decide) (by rfl)

/-! ### C2 -/

/-- **C2 counterexample**: `ltDoubleBad` violates the settle-window check
(rule 8) *and* the locksroot commitment (rule 10), yet
`register_transfer_from_to` raises `InvalidLocksRoot`, not the lock-time
error — the code checks the locksroot before the expiration windows. -/
theorem C2_counterexample :
    regErrKind (chanEmpty.register_transfer_from_to
        (.locked ltDoubleBad) .partners) = some .invalidLocksRoot
    ∧ ¬(ltDoubleBad.lock.expiration - chanEmpty.external_state.block_number
        < chanEmpty.settle_timeout)
    ∧ rootOf (chanEmpty.our_state.locked.root_with (some ltDoubleBad.lock) none)
      = some (sha3_lock_bytes ltDoubleBad.lock)
    ∧ sha3_lock_bytes ltDoubleBad.lock ≠ ltDoubleBad.locksroot := by
  decide

/-- **C2 (amended)**: the locksroot check runs *before* the expiration
window checks: whenever the six common checks and the locked-amount check
pass and the recomputed root `root_with(include=lock)` disagrees with the
message's locksroot, the call raises `InvalidLocksRoot` — regardless of the
expiration window (in particular when the expiration checks are also
violated). -/
theorem C2_locksroot_checked_first (c : Channel) (lt : LockedTransfer)
    (side : Side)
    (hpre : c.precheck (.locked lt) side = none)
    (hbal : ¬(lt.transfered_amount - (c.stateOf side).transfered_amount
        + lt.lock.amount >
      (c.stateOf side).distributable (c.stateOf side.other)))
    (hroot : merkleroot ((c.stateOf side.other).locked.cached_lock_hashes
        ++ [sha3_lock_bytes lt.lock]) ≠ lt.locksroot) :
    regErrKind (c.register_transfer_from_to (.locked lt) side)
      = some .invalidLocksRoot := by
  unfold Channel.register_transfer_from_to
  rw [hpre]
  simp only []
  unfold Channel.register_locked
  simp only []
  rw [if_neg hbal, root_with_include]
  simp only []
  rw [if_pos hroot]
  rfl

/-- Witness for `C2_locksroot_checked_first` on the concrete double-violation
fixture. -/
theorem C2_locksroot_checked_first_witness :
    regErrKind (chanEmpty.register_transfer_from_to
        (.locked ltDoubleBad) .partners) = some .invalidLocksRoot :=
  C2_locksroot_checked_first chanEmpty ltDoubleBad .partners
    (by decide) (by decide) (by decide)

/-! ### C3 -/

/-- A lock whose hashlock is in neither fixture container. -/
def lockC : Lock := ⟨7, 15, HashVal.sha3Secret 9⟩

def transferC : LockedTransfer :=
  { nonce := 3, asset := 5, transfered_amount := 0, recipient := 1,
    locksroot := HashVal.zero, lock := lockC, sender := 2 }

/-- **C3**: for a well-formed lock set `S` and a transfer `t` whose lock's
hashlock is not in `S`, `root_with(include = t.lock)` succeeds and returns
`S` itself (mapping, ordered hash sequence and cache all byte-identical to
the pre-call state), and the returned root equals the root obtained by
`S.add t` followed by reading `root`. -/
theorem C3_root_with_add (S : LockedTransfers) (t : LockedTransfer)
    (hwf : S.wf) (hfresh : S.lookup t.lock.hashlock = none) :
    ∃ r S2,
      S.root_with (some t.lock) none = .ok (r, S)
      ∧ S.add t = .ok S2
      ∧ S2.root_val = r := by
  have hnot : sha3_lock_bytes t.lock ∉ S.cached_lock_hashes :=
    wf_hash_not_mem hwf hfresh
  exact ⟨merkleroot (S.cached_lock_hashes ++ [sha3_lock_bytes t.lock]), _,
    root_with_include_fresh S t.lock hnot, add_ok hfresh, rfl⟩

/-- Witness for `C3_root_with_add` on the two-lock fixture and a fresh
lock. -/
theorem C3_root_with_add_witness :
    ∃ r S2,
      locksetAB.root_with (some lockC) none = .ok (r, locksetAB)
      ∧ locksetAB.add transferC = .ok S2
      ∧ S2.root_val = r :=
  C3_root_with_add locksetAB transferC (by decide) (by decide)

/-! ### C4 -/

/-- **C4 counterexample**: `root_with(include = lockA, exclude = lockB)` on
the empty container raises `ValueError` (from `list.remove`) and leaves the
include hash appended to the internal sequence — an exit path on which the
sequence does **not** equal its pre-call contents. -/
theorem C4_counterexample :
    LockedTransfers.init.root_with (some lockA) (some lockB)
      = .error (.valueError "list.remove(x): x not in list",
          { LockedTransfers.init with
            cached_lock_hashes := [sha3_lock_bytes lockA] })
    ∧ ([sha3_lock_bytes lockA] : List HashVal)
      ≠ LockedTransfers.init.cached_lock_hashes := by
  decide

/-- **C4 (amended)**: on every *successful* exit `root_with` preserves the
internal sequence up to permutation, and restores it exactly when no
exclude is given and the include hash was not already present; on a raising
exit the sequence is left equal to the pre-call contents with the include
hash appended (when an include was given and its hash survives), or exactly
the pre-call contents otherwise. -/
theorem C4_root_with_sequence (s : LockedTransfers) (lock exclude : Option Lock) :
    (∀ r s', s.root_with lock exclude = .ok (r, s') →
      List.Perm s'.cached_lock_hashes s.cached_lock_hashes)
    ∧ (∀ l, lock = some l → sha3_lock_bytes l ∉ s.cached_lock_hashes →
        exclude = none →
        ∀ r s', s.root_with lock exclude = .ok (r, s') →
          s'.cached_lock_hashes = s.cached_lock_hashes)
    ∧ (∀ e s', s.root_with lock exclude = .error (e, s') →
        s'.cached_lock_hashes = s.cached_lock_hashes
        ∨ ∃ l, lock = some l ∧
            s'.cached_lock_hashes
              = s.cached_lock_hashes ++ [sha3_lock_bytes l]) := by
  rcases lock with _ | l <;> rcases exclude with _ | ex
  · -- no arguments: identity
    refine ⟨?_, ?_, ?_⟩
    · intro r s' h
      cases h
      exact List.Perm.refl _
    · intro l hl
      cases hl
    · intro e s' h
      cases h
  · -- exclude only
    refine ⟨?_, ?_, ?_⟩
    · intro r s' h
      by_cases hmem : sha3_lock_bytes ex ∈ s.cached_lock_hashes
      · rw [root_with_exclude_mem s ex hmem] at h
        cases h
        exact perm_erase_append hmem
      · rw [root_with_exclude_not_mem s ex hmem] at h
        cases h
    · intro l hl
      cases hl
    · intro e s' h
      by_cases hmem : sha3_lock_bytes ex ∈ s.cached_lock_hashes
      · rw [root_with_exclude_mem s ex hmem] at h
        cases h
      · rw [root_with_exclude_not_mem s ex hmem] at h
        cases h
        exact Or.inl rfl
  · -- include only: always succeeds, erased back
    refine ⟨?_, ?_, ?_⟩
    · intro r s' h
      rw [root_with_include] at h
      cases h
      exact perm_append_erase
    · intro l hl hfresh _ r s' h
      cases hl
      rw [root_with_include_fresh s l hfresh] at h
      cases h
      rfl
    · intro e s' h
      rw [root_with_include] at h
      cases h
  · -- include and exclude
    refine ⟨?_, ?_, ?_⟩
    · intro r s' h
      unfold LockedTransfers.root_with at h
      simp only [] at h
      by_cases hmem : sha3_lock_bytes ex ∈
          s.cached_lock_hashes ++ [sha3_lock_bytes l]
      · rw [if_pos hmem] at h
        by_cases hmem2 : sha3_lock_bytes l ∈
            (s.cached_lock_hashes ++ [sha3_lock_bytes l]).erase (sha3_lock_bytes ex)
        · rw [if_pos hmem2] at h
          cases h
          -- multiset bookkeeping: append l, erase ex, erase l, append ex
          have p1 : List.Perm (s.cached_lock_hashes ++ [sha3_lock_bytes l])
              (sha3_lock_bytes ex ::
                (s.cached_lock_hashes ++ [sha3_lock_bytes l]).erase
                  (sha3_lock_bytes ex)) :=
            List.perm_cons_erase hmem
          have p2 : List.Perm
              ((s.cached_lock_hashes ++ [sha3_lock_bytes l]).erase
                (sha3_lock_bytes ex))
              (sha3_lock_bytes l ::
                ((s.cached_lock_hashes ++ [sha3_lock_bytes l]).erase
                  (sha3_lock_bytes ex)).erase (sha3_lock_bytes l)) :=
            List.perm_cons_erase hmem2
          have p3 : List.Perm (sha3_lock_bytes l :: s.cached_lock_hashes)
              (sha3_lock_bytes ex :: sha3_lock_bytes l ::
                ((s.cached_lock_hashes ++ [sha3_lock_bytes l]).erase
                  (sha3_lock_bytes ex)).erase (sha3_lock_bytes l)) :=
            ((List.perm_append_singleton _ _).symm.trans p1).trans
              (List.Perm.cons _ p2)
          have p4 := p3.trans (List.Perm.swap _ _ _)
          have p5 := List.Perm.cons_inv p4
          exact (List.perm_append_singleton _ _).trans p5.symm
        · rw [if_neg hmem2] at h
          cases h
      · rw [if_neg hmem] at h
        cases h
    · intro l0 hl0 hfresh hex
      cases hex
    · intro e s' h
      unfold LockedTransfers.root_with at h
      simp only [] at h
      by_cases hmem : sha3_lock_bytes ex ∈
          s.cached_lock_hashes ++ [sha3_lock_bytes l]
      · rw [if_pos hmem] at h
        by_cases hmem2 : sha3_lock_bytes l ∈
            (s.cached_lock_hashes ++ [sha3_lock_bytes l]).erase (sha3_lock_bytes ex)
        · rw [if_pos hmem2] at h
          cases h
        · rw [if_neg hmem2] at h
          cases h
          -- the assert can only fail when exclude erased the appended hash:
          -- then ex and l hash equal and the hash was fresh, so the erase
          -- restored the original sequence
          left
          have hexl : sha3_lock_bytes ex = sha3_lock_bytes l := by
            by_contra hne
            exact hmem2 ((List.mem_erase_of_ne (Ne.symm hne)).mpr
              (List.mem_append_right _ (List.mem_singleton.mpr rfl)))
          rw [hexl] at hmem2
          have hfresh : sha3_lock_bytes l ∉ s.cached_lock_hashes := by
            intro hin
            apply hmem2
            rw [List.erase_append_left _ hin]
            exact List.mem_append_right _ (List.mem_singleton.mpr rfl)
          rw [hexl]
          exact erase_append_self_of_not_mem hfresh
      · rw [if_neg hmem] at h
        cases h
        exact Or.inr ⟨l, rfl, rfl⟩

/-- Witness for `C4_root_with_sequence`, exercising the raising exit on the
empty container. -/
theorem C4_root_with_sequence_witness :
    ({ LockedTransfers.init with
        cached_lock_hashes := [sha3_lock_bytes lockA] } :
          LockedTransfers).cached_lock_hashes
      = LockedTransfers.init.cached_lock_hashes
    ∨ ∃ l, (some lockA) = some l ∧
        ({ LockedTransfers.init with
            cached_lock_hashes := [sha3_lock_bytes lockA] } :
              LockedTransfers).cached_lock_hashes
          = LockedTransfers.init.cached_lock_hashes ++ [sha3_lock_bytes l] :=
  (C4_root_with_sequence LockedTransfers.init (some lockA) (some lockB)).2.2
    (.valueError "list.remove(x): x not in list")
    { LockedTransfers.init with cached_lock_hashes := [sha3_lock_bytes lockA] }
    (by decide)

/-! ### C5 -/

/-- **C5 counterexample**: creating a `DirectTransfer` with the secret of
the pending `lockA` yields a message whose locksroot is the partner's
*current* root (with `lockA` still included: the single-leaf root is
`lockA`'s hash), not `root_with(exclude = lockA)` (the empty root), which
differs. -/
theorem C5_counterexample :
    ((chanPartnerLock.create_directtransfer 10 (some 7)).map
        (fun p => p.1.locksroot))
      = .ok (sha3_lock_bytes lockA)
    ∧ rootOf (chanPartnerLock.partner_state.locked.root_with none (some lockA))
      = some HashVal.zero
    ∧ HashVal.sha3Secret 7 = lockA.hashlock
    ∧ (chanPartnerLock.partner_state.locked.lookup lockA.hashlock).isSome = true
    ∧ sha3_lock_bytes lockA ≠ HashVal.zero := by
  decide

/-- **C5 (amended)**: the locksroot of every message returned by
`create_directtransfer` equals the partner's *current* locks root,
regardless of whether a secret was supplied — the secret is embedded in the
message but never consulted for the locksroot. -/
theorem C5_direct_locksroot_current (c c' : Channel) (amount : Int)
    (secret : Option Nat) (msg : DirectTransfer)
    (h : c.create_directtransfer amount secret = .ok (msg, c')) :
    msg.locksroot = (c.partner_state.locked.root).1 := by
  unfold Channel.create_directtransfer at h
  split at h
  · cases h
  · simp only [] at h
    split at h
    · cases h
    · cases h
      rfl

/-- The message `create_directtransfer 10 (some 7)` concretely returns on
`chanPartnerLock`. -/
def c5msg : DirectTransfer :=
  { nonce := 1, asset := 5, transfered_amount := 10, recipient := 2,
    locksroot := sha3_lock_bytes lockA, secret := some 7, sender := 0 }

/-- `chanPartnerLock` after the root-cache fill done by the constructor. -/
def c5chan : Channel :=
  { chanPartnerLock with
    partner_state := { chanPartnerLock.partner_state with
      locked := { chanPartnerLock.partner_state.locked with
        cached_root := some (sha3_lock_bytes lockA) } } }

/-- Witness for `C5_direct_locksroot_current` at the concrete secret-bearing
construction. -/
theorem C5_direct_locksroot_current_witness :
    c5msg.locksroot = (chanPartnerLock.partner_state.locked.root).1 :=
  C5_direct_locksroot_current chanPartnerLock c5chan 10 (some 7) c5msg
    (by decide)

/-! ### Success-path characterisations of `register_transfer` -/

/-- An outbound `DirectTransfer` without secret that satisfies all six
validation checks registers successfully: the sender's cumulative amount is
set, the nonce advances, the message lands in `sent_transfers`, everything
else is untouched. -/
theorem register_direct_no_secret_ok (c : Channel) (dt : DirectTransfer)
    (hasset : dt.asset = c.asset_address)
    (hrecip : dt.recipient = c.partner_state.address)
    (hsender : dt.sender = c.our_state.address)
    (hneg : ¬(dt.transfered_amount < c.our_state.transfered_amount))
    (hnonce : ¬(dt.nonce < 1 ∨ dt.nonce ≠ c.our_state.nonce))
    (hdist : ¬(dt.transfered_amount - c.our_state.transfered_amount >
      c.our_state.distributable c.partner_state))
    (hsec : dt.secret = none) :
    c.register_transfer (.direct dt) =
      .ok { c with
        our_state := { c.our_state with
          transfered_amount := dt.transfered_amount
          nonce := c.our_state.nonce + 1 }
        partner_state := { c.partner_state with
          locked := (c.partner_state.locked.root).2 }
        sent_transfers := c.sent_transfers ++ [.direct dt] } := by
  have hpre : c.precheck (.direct dt) .ours = none := by
    unfold Channel.precheck
    simp only [Channel.stateOf, Side.other, Transfer.asset, Transfer.recipient,
      Transfer.sender, Transfer.transfered_amount, Transfer.nonce]
    rw [if_neg (by simp [hasset]), if_neg (by simp [hrecip]),
      if_neg (by simp [hsender]), if_neg hneg, if_neg hnonce, if_neg hdist]
  have hdir : c.register_direct dt .ours =
      .ok { c with our_state := { c.our_state with
        transfered_amount := dt.transfered_amount
        nonce := c.our_state.nonce + 1 } } := by
    unfold Channel.register_direct
    simp only [Channel.stateOf, Channel.setState, Side.other]
    rw [hsec]
  have hfromto : c.register_transfer_from_to (.direct dt) .ours =
      .ok { c with
        our_state := { c.our_state with
          transfered_amount := dt.transfered_amount
          nonce := c.our_state.nonce + 1 }
        partner_state := { c.partner_state with
          locked := (c.partner_state.locked.root).2 } } := by
    unfold Channel.register_transfer_from_to
    rw [hpre]
    simp only []
    rw [hdir]
    simp only [Channel.log_registered, Channel.stateOf, Channel.setState,
      Side.other]
  unfold Channel.register_transfer
  simp only [Transfer.recipient]
  rw [if_pos hrecip, hfromto]

/-- An outbound `LockedTransfer` that satisfies all validation checks (with
a fresh lock whose hash is not cached, a matching locksroot commitment and
expiration strictly inside both windows) registers successfully: the lock
is added to the partner container, the hashlock registration hook fires,
the nonce advances, the message lands in `sent_transfers`. -/
theorem register_locked_outbound_ok (c : Channel) (lt : LockedTransfer)
    (hasset : lt.asset = c.asset_address)
    (hrecip : lt.recipient = c.partner_state.address)
    (hsender : lt.sender = c.our_state.address)
    (hneg : ¬(lt.transfered_amount < c.our_state.transfered_amount))
    (hnonce : ¬(lt.nonce < 1 ∨ lt.nonce ≠ c.our_state.nonce))
    (hdist : ¬(lt.transfered_amount - c.our_state.transfered_amount >
      c.our_state.distributable c.partner_state))
    (hdist2 : ¬(lt.transfered_amount - c.our_state.transfered_amount
        + lt.lock.amount >
      c.our_state.distributable c.partner_state))
    (hroot : merkleroot (c.partner_state.locked.cached_lock_hashes
        ++ [sha3_lock_bytes lt.lock]) = lt.locksroot)
    (hsettle : lt.lock.expiration - c.external_state.block_number
      < c.settle_timeout)
    (hreveal : lt.lock.expiration - c.external_state.block_number
      > c.reveal_timeout)
    (hfreshhash : sha3_lock_bytes lt.lock ∉
      c.partner_state.locked.cached_lock_hashes)
    (hfresh : c.partner_state.locked.lookup lt.lock.hashlock = none) :
    c.register_transfer (.locked lt) =
      .ok { c with
        our_state := { c.our_state with
          transfered_amount := lt.transfered_amount
          nonce := c.our_state.nonce + 1 }
        partner_state := { c.partner_state with
          locked := { locked := c.partner_state.locked.locked ++ [(lt.lock.hashlock, lt)]
                      cached_lock_hashes := c.partner_state.locked.cached_lock_hashes ++ [sha3_lock_bytes lt.lock]
                      cached_root := some (merkleroot (c.partner_state.locked.cached_lock_hashes ++ [sha3_lock_bytes lt.lock])) } }
        external_state :=
          c.external_state.register_channel_for_hashlock lt.lock.hashlock
        sent_transfers := c.sent_transfers ++ [.locked lt] } := by
  have hpre : c.precheck (.locked lt) .ours = none := by
    unfold Channel.precheck
    simp only [Channel.stateOf, Side.other, Transfer.asset, Transfer.recipient,
      Transfer.sender, Transfer.transfered_amount, Transfer.nonce]
    rw [if_neg (by simp [hasset]), if_neg (by simp [hrecip]),
      if_neg (by simp [hsender]), if_neg hneg, if_neg hnonce, if_neg hdist]
  have hreg : c.register_locked lt .ours =
      .ok { c with
        our_state := { c.our_state with
          transfered_amount := lt.transfered_amount
          nonce := c.our_state.nonce + 1 }
        partner_state := { c.partner_state with
          locked := { locked := c.partner_state.locked.locked ++ [(lt.lock.hashlock, lt)]
                      cached_lock_hashes := c.partner_state.locked.cached_lock_hashes ++ [sha3_lock_bytes lt.lock]
                      cached_root := none } }
        external_state :=
          c.external_state.register_channel_for_hashlock lt.lock.hashlock } := by
    unfold Channel.register_locked
    simp only [Channel.stateOf, Channel.setState, Side.other]
    rw [if_neg hdist2, root_with_include_fresh _ _ hfreshhash]
    simp only []
    rw [if_neg (not_not_intro hroot), if_neg (not_not_intro hsettle),
      if_neg (not_not_intro hreveal), add_ok hfresh]
  have hfromto : c.register_transfer_from_to (.locked lt) .ours =
      .ok { c with
        our_state := { c.our_state with
          transfered_amount := lt.transfered_amount
          nonce := c.our_state.nonce + 1 }
        partner_state := { c.partner_state with
          locked := { locked := c.partner_state.locked.locked ++ [(lt.lock.hashlock, lt)]
                      cached_lock_hashes := c.partner_state.locked.cached_lock_hashes ++ [sha3_lock_bytes lt.lock]
                      cached_root := some (merkleroot (c.partner_state.locked.cached_lock_hashes ++ [sha3_lock_bytes lt.lock])) } }
        external_state :=
          c.external_state.register_channel_for_hashlock lt.lock.hashlock } := by
    unfold Channel.register_transfer_from_to
    rw [hpre]
    simp only []
    rw [hreg]
    simp only [Channel.log_registered, Channel.stateOf, Channel.setState,
      Side.other, LockedTransfers.root]
  unfold Channel.register_transfer
  simp only [Transfer.recipient]
  rw [if_pos hrecip, hfromto]

/-! ### C6 -/

/-- **C6 counterexample**: `create_lockedtransfer` accepts an expiration at
exactly `block + reveal_timeout` (its check is non-strict), but
`register_transfer` requires `expiration - block > reveal_timeout` strictly
— so this constructor-accepted message is rejected by registration with the
expiration `ValueError`, refuting "passing that message to
register_transfer raises no error". -/
theorem C6_counterexample :
    ((3 : Int) - chanEmpty.external_state.block_number = chanEmpty.reveal_timeout)
    ∧ okB (chanEmpty.create_lockedtransfer 10 3 (HashVal.sha3Secret 9)) = true
    ∧ (match chanEmpty.create_lockedtransfer 10 3 (HashVal.sha3Secret 9) with
       | .ok (msg, c1) =>
         regErrKind (c1.register_transfer
           ((Transfer.locked msg).sign chanEmpty.our_state.address))
       | .error _ => none)
      = some (.valueError "Expiration smaller than the minimum requried.") := by
  decide

/-- **C6 (amended)**: a constructor-built message registers successfully on
the same channel and advances our nonce by exactly 1, provided our nonce is
at least 1 (true in every reachable state) and — beyond what the claim
assumed — the message is a `DirectTransfer` *without* secret, or a
`LockedTransfer` whose expiration is *strictly* above `block +
reveal_timeout` and whose hashlock is fresh in the well-formed partner
container.  The boundary case `expiration - block = reveal_timeout` (and
any direct transfer carrying a secret) is constructor-accepted but
registration-rejected. -/
theorem C6_create_register_roundtrip :
    (∀ (c c' : Channel) (amount : Int) (msg : DirectTransfer),
      1 ≤ c.our_state.nonce →
      c.create_directtransfer amount none = .ok (msg, c') →
      ∃ c'', c'.register_transfer
          ((Transfer.direct msg).sign c.our_state.address) = .ok c''
        ∧ c''.our_state.nonce = c.our_state.nonce + 1)
    ∧ (∀ (c c' : Channel) (amount expiration : Int) (hashlock : HashVal)
        (msg : LockedTransfer),
      1 ≤ c.our_state.nonce →
      c.partner_state.locked.wf →
      c.partner_state.locked.lookup hashlock = none →
      expiration - c.external_state.block_number > c.reveal_timeout →
      c.create_lockedtransfer amount expiration hashlock = .ok (msg, c') →
      ∃ c'', c'.register_transfer
          ((Transfer.locked msg).sign c.our_state.address) = .ok c''
        ∧ c''.our_state.nonce = c.our_state.nonce + 1) := by
  constructor
  · intro c c' amount msg hnonce h
    unfold Channel.create_directtransfer at h
    split at h
    · cases h
    · simp only [] at h
      split at h
      · cases h
      · rename_i hopen hfunds
        push_neg at hfunds
        cases h
        simp only [Transfer.sign]
        have hsame :
            ({ c with partner_state := { c.partner_state with
                locked := (c.partner_state.locked.root).2 } } :
              Channel).our_state.distributable
              ({ c with partner_state := { c.partner_state with
                  locked := (c.partner_state.locked.root).2 } } :
                Channel).partner_state
            = c.our_state.distributable c.partner_state := by
          unfold ChannelEndState.distributable ChannelEndState.balance
            LockedTransfers.outstanding
          rw [(root_preserves c.partner_state.locked).1]
        refine ⟨_, register_direct_no_secret_ok _ _ rfl rfl rfl ?_ ?_ ?_ rfl, rfl⟩
        · simp only []
          omega
        · simp only []
          intro hcontra
          rcases hcontra with h1 | h2
          · omega
          · exact h2 rfl
        · rw [hsame]
          simp only []
          omega
  · intro c c' amount expiration hashlock msg hnonce hwf hfresh hreveal h
    unfold Channel.create_lockedtransfer at h
    split at h
    · cases h
    · simp only [] at h
      split at h
      · cases h
      · split at h
        · cases h
        · split at h
          · cases h
          · rename_i hopen hsettle hrevealc hfunds
            push_neg at hfunds
            have hfreshhash :
                sha3_lock_bytes ⟨amount, expiration, hashlock⟩ ∉
                  c.partner_state.locked.cached_lock_hashes :=
              wf_hash_not_mem hwf hfresh
            rw [root_with_include_fresh _ _ hfreshhash] at h
            simp only [] at h
            cases h
            simp only [Transfer.sign]
            have heta : ({ contract_balance := c.partner_state.contract_balance, transfered_amount := c.partner_state.transfered_amount, address := c.partner_state.address, nonce := c.partner_state.nonce, locked := c.partner_state.locked } : ChannelEndState) = c.partner_state := rfl
            simp only [heta]
            have hetaC : ({ our_state := c.our_state, partner_state := c.partner_state, external_state := c.external_state, asset_address := c.asset_address, reveal_timeout := c.reveal_timeout, settle_timeout := c.settle_timeout, received_transfers := c.received_transfers, sent_transfers := c.sent_transfers } : Channel) = c := rfl
            simp only [hetaC]
            refine ⟨_, register_locked_outbound_ok _ _ rfl rfl rfl ?_ ?_ ?_ ?_
              rfl ?_ ?_ hfreshhash hfresh, rfl⟩
            · simp only []
              omega
            · simp only []
              intro hcontra
              rcases hcontra with h1 | h2
              · omega
              · exact h2 rfl
            · simp only []
              have : ¬(c.our_state.transfered_amount
                  - c.our_state.transfered_amount >
                c.our_state.distributable c.partner_state) := by omega
              exact this
            · simp only []
              omega
            · simp only []
              omega
            · simp only []
              exact hreveal

/-- Witness for `C6_create_register_roundtrip`: the direct-transfer
round-trip on the fresh fixture channel. -/
theorem C6_create_register_roundtrip_witness :
    ∃ c'', (match chanEmpty.create_directtransfer 10 none with
        | .ok (_, c1) => c1
        | .error _ => chanEmpty).register_transfer
        ((Transfer.direct (match chanEmpty.create_directtransfer 10 none with
          | .ok (msg, _) => msg
          | .error _ => dtAssetMismatch)).sign chanEmpty.our_state.address)
      = .ok c''
    ∧ c''.our_state.nonce = chanEmpty.our_state.nonce + 1 :=
  C6_create_register_roundtrip.1 chanEmpty
    (match chanEmpty.create_directtransfer 10 none with
      | .ok (_, c1) => c1
      | .error _ => chanEmpty)
    10
    (match chanEmpty.create_directtransfer 10 none with
      | .ok (msg, _) => msg
      | .error _ => dtAssetMismatch)
    (by decide) (by decide)

/-! ### C7 -/

/-- **C7**: endpoint nonces start at 1 and stay at least 1 in every
reachable state; a successful `register_transfer_from_to` advances exactly
the sender endpoint's nonce by 1; and no other operation — a raising
register, `claim_locked` (success or failure), or either message
constructor — changes any nonce. -/
theorem C7_nonce_discipline :
    (∀ c : Channel, Reachable c →
      1 ≤ c.our_state.nonce ∧ 1 ≤ c.partner_state.nonce)
    ∧ (∀ (c c' : Channel) (t : Transfer) (side : Side),
        c.register_transfer_from_to t side = .ok c' →
        (c'.stateOf side).nonce = (c.stateOf side).nonce + 1
        ∧ (c'.stateOf side.other).nonce = (c.stateOf side.other).nonce)
    ∧ (∀ (c c' : Channel) (t : Transfer) (side : Side) (e : RErr),
        c.register_transfer_from_to t side = .error (e, c') →
        c'.our_state.nonce = c.our_state.nonce
        ∧ c'.partner_state.nonce = c.partner_state.nonce)
    ∧ (∀ (c c' : Channel) (secret : Nat) (lr : Option HashVal),
        c.claim_locked secret lr = .ok c' →
        c'.our_state.nonce = c.our_state.nonce
        ∧ c'.partner_state.nonce = c.partner_state.nonce)
    ∧ (∀ (c c' : Channel) (secret : Nat) (lr : Option HashVal) (e : RErr),
        c.claim_locked secret lr = .error (e, c') →
        c'.our_state.nonce = c.our_state.nonce
        ∧ c'.partner_state.nonce = c.partner_state.nonce)
    ∧ (∀ (c c' : Channel) (msg : DirectTransfer) (amount : Int)
        (secret : Option Nat),
        c.create_directtransfer amount secret = .ok (msg, c') →
        c'.our_state.nonce = c.our_state.nonce
        ∧ c'.partner_state.nonce = c.partner_state.nonce)
    ∧ (∀ (c c' : Channel) (msg : LockedTransfer) (amount expiration : Int)
        (hashlock : HashVal),
        c.create_lockedtransfer amount expiration hashlock = .ok (msg, c') →
        c'.our_state.nonce = c.our_state.nonce
        ∧ c'.partner_state.nonce = c.partner_state.nonce) := by
  refine ⟨fun c hr => reachable_nonce_ge_one hr,
    fun c c' t side h =>
      ⟨(register_from_to_ok_nonce h).1, (register_from_to_ok_nonce h).2.1⟩,
    fun c c' t side e h =>
      ⟨(register_from_to_error_nonce h).1, (register_from_to_error_nonce h).2.1⟩,
    fun c c' secret lr h => channel_claim_ok_nonce h,
    fun c c' secret lr e h => channel_claim_error_nonce h,
    fun c c' msg amount secret h => ?_,
    fun c c' msg amount expiration hashlock h => ?_⟩
  · obtain ⟨h1, h2, _⟩ := create_direct_ok_state h
    exact ⟨by rw [h1], h2⟩
  · obtain ⟨h1, h2, _⟩ := create_locked_ok_state h
    exact ⟨by rw [h1], h2⟩

/-- An outbound `DirectTransfer` that `chanEmpty` accepts. -/
def dtOut : DirectTransfer :=
  { nonce := 1, asset := 5, transfered_amount := 10, recipient := 2,
    locksroot := HashVal.zero, secret := none, sender := 1 }

/-- `chanEmpty` after registering `dtOut` via `register_transfer_from_to`
(the final log read fills the recipient container's empty root cache). -/
def c7after : Channel :=
  { chanEmpty with
    our_state :=
      { contract_balance := 100, transfered_amount := 10, address := 1,
        nonce := 2, locked := LockedTransfers.init }
    partner_state := { chanEmpty.partner_state with
      locked := { LockedTransfers.init with
        cached_root := some HashVal.zero } } }

/-- `chanLocksAB` after `claim_locked 7` releases `lockA`. -/
def c7claimAfter : Channel :=
  { chanLocksAB with
    our_state := { chanLocksAB.our_state with locked :=
      { locked := [(lockB.hashlock, transferB)],
        cached_lock_hashes := [sha3_lock_bytes lockB],
        cached_root := none } }
    partner_state := { chanLocksAB.partner_state with
      transfered_amount := 10 } }

/-- The message and channel `create_directtransfer 10` produces on
`chanEmpty` (the constructor fills the partner container's root cache). -/
def c7created : Channel :=
  { chanEmpty with partner_state :=
    { chanEmpty.partner_state with locked :=
      { LockedTransfers.init with cached_root := some HashVal.zero } } }

def c7createdMsg : DirectTransfer :=
  { nonce := 1, asset := 5, transfered_amount := 10, recipient := 2,
    locksroot := HashVal.zero, secret := none, sender := 0 }

def c7lockedMsg : LockedTransfer :=
  { nonce := 1, asset := 5, transfered_amount := 0, recipient := 2,
    locksroot := sha3_lock_bytes ⟨10, 10, HashVal.sha3Secret 9⟩,
    lock := ⟨10, 10, HashVal.sha3Secret 9⟩, sender := 0 }

/-- Witness for `C7_nonce_discipline`: every conjunct instantiated at a
concrete call. -/
theorem C7_nonce_discipline_witness :
    (1 ≤ chanEmpty.our_state.nonce ∧ 1 ≤ chanEmpty.partner_state.nonce)
    ∧ ((c7after.stateOf .ours).nonce = (chanEmpty.stateOf .ours).nonce + 1
      ∧ (c7after.stateOf Side.ours.other).nonce
        = (chanEmpty.stateOf Side.ours.other).nonce)
    ∧ (chanEmpty.our_state.nonce = chanEmpty.our_state.nonce
      ∧ chanEmpty.partner_state.nonce = chanEmpty.partner_state.nonce)
    ∧ (c7claimAfter.our_state.nonce = chanLocksAB.our_state.nonce
      ∧ c7claimAfter.partner_state.nonce = chanLocksAB.partner_state.nonce)
    ∧ (c7created.our_state.nonce = chanEmpty.our_state.nonce
      ∧ c7created.partner_state.nonce = chanEmpty.partner_state.nonce) :=
  ⟨C7_nonce_discipline.1 chanEmpty (Reachable.init 1 100 2 100 extOpen 5 3 20),
   C7_nonce_discipline.2.1 chanEmpty c7after (.direct dtOut) .ours (by decide),
   C7_nonce_discipline.2.2.1 chanEmpty chanEmpty (.direct dtAssetMismatch)
     .partners (.valueError "Asset address mismatch") (by decide),
   C7_nonce_discipline.2.2.2.1 chanLocksAB c7claimAfter 7 none (by decide),
   C7_nonce_discipline.2.2.2.2.2.1 chanEmpty c7created c7createdMsg 10 none
     (by decide)⟩

/-! ### C8 -/

/-- Recipient mismatch fixture. -/
def dtBadRecipient : DirectTransfer :=
  { nonce := 1, asset := 5, transfered_amount := 0, recipient := 99,
    locksroot := HashVal.zero, secret := none, sender := 2 }

/-- Sender mismatch fixture. -/
def dtBadSender : DirectTransfer :=
  { nonce := 1, asset := 5, transfered_amount := 0, recipient := 1,
    locksroot := HashVal.zero, secret := none, sender := 77 }

/-- Negative transfer fixture. -/
def dtNegative : DirectTransfer :=
  { nonce := 1, asset := 5, transfered_amount := -5, recipient := 1,
    locksroot := HashVal.zero, secret := none, sender := 2 }

/-- The fixture channel, closed on-chain. -/
def chanClosed : Channel := { chanEmpty with external_state := extClosed }

/-- **C8 counterexample**: the asset/recipient/sender/negative failures of
`register_transfer_from_to`, the closed-channel and insufficient-funds
failures of `create_directtransfer`, and `Channel.claim_locked` with an
unknown secret all raise the *same* exception class `ValueError` — they are
distinguished only by message strings, so a caller cannot match on distinct
kinds; no `AssetMismatch`/`UnknownRecipient`/`UnsignedTransfer`/
`NegativeTransfer`/`ChannelClosed`/`InsufficientFunds`/`UnknownSecret`
classes exist. -/
theorem C8_counterexample :
    (regErrKind (chanEmpty.register_transfer_from_to
        (.direct dtAssetMismatch) .partners)).map RErr.className
      = some "ValueError"
    ∧ (regErrKind (chanEmpty.register_transfer_from_to
        (.direct dtBadRecipient) .partners)).map RErr.className
      = some "ValueError"
    ∧ (regErrKind (chanEmpty.register_transfer_from_to
        (.direct dtBadSender) .partners)).map RErr.className
      = some "ValueError"
    ∧ (regErrKind (chanEmpty.register_transfer_from_to
        (.direct dtNegative) .partners)).map RErr.className
      = some "ValueError"
    ∧ (errOf (chanClosed.create_directtransfer 10 none)).map RErr.className
      = some "ValueError"
    ∧ (errOf (chanEmpty.create_directtransfer 0 none)).map RErr.className
      = some "ValueError"
    ∧ (regErrKind (chanEmpty.claim_locked 99 none)).map RErr.className
      = some "ValueError" := by
  decide

/-- **C8 (amended)**: the four register validation failures, the
closed-channel and insufficient-funds constructor failures, and the
unknown-secret failure of `Channel.claim_locked` are all raised as the
single class `ValueError`, distinguished only by their message strings; the
distinct matchable kinds the module actually provides are `InvalidNonce`,
`InvalidSecret`, `InvalidLocksRoot` and `InsufficientBalance`
(`InvalidLockTime` is declared but never raised). -/
theorem C8_error_taxonomy :
    (∀ (c : Channel) (t : Transfer) (side : Side),
      t.asset ≠ c.asset_address →
      c.register_transfer_from_to t side
        = .error (.valueError "Asset address mismatch", c))
    ∧ (∀ (c : Channel) (t : Transfer) (side : Side),
      t.asset = c.asset_address →
      t.recipient ≠ (c.stateOf side.other).address →
      c.register_transfer_from_to t side
        = .error (.valueError "Unknow recipient", c))
    ∧ (∀ (c : Channel) (t : Transfer) (side : Side),
      t.asset = c.asset_address →
      t.recipient = (c.stateOf side.other).address →
      t.sender ≠ (c.stateOf side).address →
      c.register_transfer_from_to t side
        = .error (.valueError "Unsigned transfer", c))
    ∧ (∀ (c : Channel) (t : Transfer) (side : Side),
      t.asset = c.asset_address →
      t.recipient = (c.stateOf side.other).address →
      t.sender = (c.stateOf side).address →
      t.transfered_amount < (c.stateOf side).transfered_amount →
      c.register_transfer_from_to t side
        = .error (.valueError "Negative transfer", c))
    ∧ (∀ (c : Channel) (amount : Int) (secret : Option Nat),
      ¬c.isopen →
      c.create_directtransfer amount secret
        = .error (.valueError "The channel is closed"))
    ∧ (∀ (c : Channel) (amount : Int) (secret : Option Nat),
      c.isopen →
      (amount ≤ 0 ∨ amount > c.our_state.distributable c.partner_state) →
      c.create_directtransfer amount secret
        = .error (.valueError "Insufficient funds"))
    ∧ (∀ (c : Channel) (secret : Nat) (lr : Option HashVal),
      c.our_state.locked.lookup (HashVal.sha3Secret secret) = none →
      c.partner_state.locked.lookup (HashVal.sha3Secret secret) = none →
      c.claim_locked secret lr
        = .error (.valueError "The secret doesnt unlock any hashlock", c)) := by
  refine ⟨?_, ?_, ?_, ?_, ?_, ?_, ?_⟩
  · intro c t side h
    unfold Channel.register_transfer_from_to Channel.precheck
    rw [if_pos h]
  · intro c t side h1 h2
    unfold Channel.register_transfer_from_to Channel.precheck
    rw [if_neg (not_not_intro h1), if_pos h2]
  · intro c t side h1 h2 h3
    unfold Channel.register_transfer_from_to Channel.precheck
    rw [if_neg (not_not_intro h1), if_neg (not_not_intro h2), if_pos h3]
  · intro c t side h1 h2 h3 h4
    unfold Channel.register_transfer_from_to Channel.precheck
    rw [if_neg (not_not_intro h1), if_neg (not_not_intro h2),
      if_neg (not_not_intro h3), if_pos h4]
  · intro c amount secret h
    unfold Channel.create_directtransfer
    rw [if_pos (by simpa using h)]
  · intro c amount secret hopen hfunds
    unfold Channel.create_directtransfer
    rw [if_neg (by simpa using hopen), if_pos hfunds]
  · intro c secret lr h1 h2
    unfold Channel.claim_locked
    rw [if_neg (by simp [h1]), if_neg (by simp [h2])]

/-- Witness for `C8_error_taxonomy`: each conjunct at a concrete call. -/
theorem C8_error_taxonomy_witness :
    chanEmpty.register_transfer_from_to (.direct dtAssetMismatch) .partners
      = .error (.valueError "Asset address mismatch", chanEmpty)
    ∧ chanEmpty.register_transfer_from_to (.direct dtBadRecipient) .partners
      = .error (.valueError "Unknow recipient", chanEmpty)
    ∧ chanEmpty.register_transfer_from_to (.direct dtBadSender) .partners
      = .error (.valueError "Unsigned transfer", chanEmpty)
    ∧ chanEmpty.register_transfer_from_to (.direct dtNegative) .partners
      = .error (.valueError "Negative transfer", chanEmpty)
    ∧ chanClosed.create_directtransfer 10 none
      = .error (.valueError "The channel is closed")
    ∧ chanEmpty.create_directtransfer 0 none
      = .error (.valueError "Insufficient funds")
    ∧ chanEmpty.claim_locked 99 none
      = .error (.valueError "The secret doesnt unlock any hashlock", chanEmpty) :=
  ⟨C8_error_taxonomy.1 chanEmpty (.direct dtAssetMismatch) .partners (by decide),
   C8_error_taxonomy.2.1 chanEmpty (.direct dtBadRecipient) .partners
     (by decide) (by decide),
   C8_error_taxonomy.2.2.1 chanEmpty (.direct dtBadSender) .partners
     (by decide) (by decide) (by decide),
   C8_error_taxonomy.2.2.2.1 chanEmpty (.direct dtNegative) .partners
     (by decide) (by decide) (by decide) (by decide),
   C8_error_taxonomy.2.2.2.2.1 chanClosed 10 none (by decide),
   C8_error_taxonomy.2.2.2.2.2.1 chanEmpty 0 none (by decide) (by decide),
   C8_error_taxonomy.2.2.2.2.2.2 chanEmpty 99 none (by decide) (by decide)⟩

/-! ### C9 -/

/-- **C9**: reading the `Channel.transfered_amount` property never succeeds:
the source returns `self.our_state.transfer_amount`, an attribute
`ChannelEndState.__init__` never assigns (the field is spelled
`transfered_amount`), so every read raises `AttributeError` instead of
returning the our-side cumulative amount. -/
theorem C9_transfered_amount_attribute_error (c : Channel) :
    c.transfered_amount = .error .attributeError := rfl

/-! ### C10 -/

/-- Writing back an endpoint state that was just read is the identity. -/
theorem setState_stateOf (c : Channel) (side : Side) :
    c.setState side (c.stateOf side) = c := by
  cases side <;> rfl

/-- **C10**: a `DirectTransfer` that passes all six validation checks but
carries a secret whose hashlock is not tracked by the recipient endpoint
raises `InvalidSecret`, and the channel is returned *exactly* as it was:
no nonce, amount or lock-set field is advanced. -/
theorem C10_unknown_secret_rejected (c : Channel) (dt : DirectTransfer)
    (side : Side) (secret : Nat)
    (hpre : c.precheck (.direct dt) side = none)
    (hsec : dt.secret = some secret)
    (hmiss : (c.stateOf side.other).locked.lookup (HashVal.sha3Secret secret)
      = none) :
    c.register_transfer_from_to (.direct dt) side
      = .error (.invalidSecret, c) := by
  unfold Channel.register_transfer_from_to
  rw [hpre]
  simp only []
  unfold Channel.register_direct
  rw [hsec]
  simp only []
  unfold ChannelEndState.claim_locked
  rw [hmiss]
  simp only []
  rw [setState_stateOf, setState_stateOf]

/-- A validation-passing `DirectTransfer` whose secret is unknown to the
recipient. -/
def dtUnknownSecret : DirectTransfer :=
  { nonce := 1, asset := 5, transfered_amount := 0, recipient := 1,
    locksroot := HashVal.zero, secret := some 42, sender := 2 }

/-- Witness for `C10_unknown_secret_rejected` on the fixture channel. -/
theorem C10_unknown_secret_rejected_witness :
    chanEmpty.register_transfer_from_to (.direct dtUnknownSecret) .partners
      = .error (.invalidSecret, chanEmpty) :=
  C10_unknown_secret_rejected chanEmpty dtUnknownSecret .partners 42
    (by decide) rfl (by decide)

end Raiden
